import Mathlib

/-!
# CafeBeelHarina-OpenGL-3D: the cylinder generator and the shading-mode selector

A shallow embedding of `Cylinder.h` (the constructor `Cylinder::Cylinder`) and of the
shading-mode code of `main.cpp` (`applyTexModeToShader`, the draw helpers, `processInput`),
followed by the properties proved about them.

Conventions of the embedding.

* C++ `int` is `Int` and `unsigned int` is `Nat` or `Int`; counters stay within the range of
  the machine type for every mesh that fits in memory, and signed overflow (undefined behaviour
  in C++) is not modelled.  A loop `for (int i = 0; i < n; ++i)` is `forLoop n`, which runs its
  body for `i = 0, ..., n-1` and not at all when `n <= 0`; `i <= n` is written `i < n + 1`.
* `float` is a field `α` with decidable equality, together with the constant `pi` and the
  functions `cosf`, `sinf`, `sqrt` the constructor calls.  Statements "over exact real
  arithmetic" instantiate `α` with `ℝ` and these with `Real.pi`, `Real.cos`, `Real.sin`,
  `Real.sqrt`.
* Division in a field is total (`x / 0 = 0`).  Where a claim is about divisions by zero, the
  vertex loop is run with `checkedDiv`, which has no value for a zero divisor
  (`Cylinder.buildVerticesChecked`).
* Where rounding decides a claim, `float` is binary32: the exact result of each operation is
  rounded by `roundBinary32` (`Cylinder.ringRadiusBinary32`).
* `std::vector` is `List`, `push_back` appends at the end.
* The calls into OpenGL made by `setupMesh` only upload the finished arrays and are left out.
-/

set_option linter.dupNamespace false

/-! ## Cylinder.h -/

/-- The loop `for (int i = 0; i < n; ++i) body`, as a state transformer: `body i` is applied
for `i = 0, 1, ..., n-1` in this order. -/
def forLoop {σ : Type} (n : Int) (body : Int → σ → σ) (s : σ) : σ :=
  (List.range n.toNat).foldl (fun s (i : Nat) => body (Int.ofNat i) s) s

/-- `std::vector::push_back`. -/
def push_back {β : Type} (v : List β) (x : β) : List β := v ++ [x]

/-- The data members `vertices` and `indices` of `class Cylinder` (the buffer handles `vao`,
`vbo`, `ebo` are left out with `setupMesh`). -/
structure Cylinder (α : Type) where
  vertices : List α
  indices : List Int

/-- Difference of two vectors. -/
def Vec3.sub {α : Type} [Field α] (u v : α × α × α) : α × α × α :=
  (u.1 - v.1, u.2.1 - v.2.1, u.2.2 - v.2.2)

/-- Cross product of two vectors (right-handed). -/
def Vec3.cross {α : Type} [Field α] (u v : α × α × α) : α × α × α :=
  (u.2.1 * v.2.2 - u.2.2 * v.2.1, u.2.2 * v.1 - u.1 * v.2.2, u.1 * v.2.1 - u.2.1 * v.1)

/-- Dot product of two vectors. -/
def Vec3.dot {α : Type} [Field α] (u v : α × α × α) : α :=
  u.1 * v.1 + u.2.1 * v.2.1 + u.2.2 * v.2.2

/-! The accessors below come before the constructor `Cylinder.Cylinder`: once it is declared,
the bare name `Cylinder` inside a declaration of this namespace denotes the constructor, not
the structure. -/

/-- The position of the vertex with ordinal `k`: the floats at offsets 0, 1, 2 of its 8-float
record (`0` where the array is too short). -/
def Cylinder.position {α : Type} [Field α] (c : Cylinder α) (k : Int) : α × α × α :=
  (c.vertices.getD (8 * k).toNat 0, c.vertices.getD ((8 * k).toNat + 1) 0,
    c.vertices.getD ((8 * k).toNat + 2) 0)

/-- The stored normal of the vertex with ordinal `k`: the floats at offsets 3, 4, 5 of its
record. -/
def Cylinder.normal {α : Type} [Field α] (c : Cylinder α) (k : Int) : α × α × α :=
  (c.vertices.getD ((8 * k).toNat + 3) 0, c.vertices.getD ((8 * k).toNat + 4) 0,
    c.vertices.getD ((8 * k).toNat + 5) 0)

/-- The radial direction `(x, y, 0)` of the vertex with ordinal `k`: from the axis of the
cylinder (the z axis) outwards through the vertex. -/
def Cylinder.radial {α : Type} [Field α] (c : Cylinder α) (k : Int) : α × α × α :=
  ((c.position k).1, (c.position k).2.1, 0)

/-- The geometric normal `(p_b - p_a) × (p_c - p_a)` of the triangle `(a, b, c)`; by the
right-hand rule it points towards the side from which `a, b, c` appear counter-clockwise, and
it is zero exactly when the triangle has zero area. -/
def Cylinder.triangleNormal {α : Type} [Field α] (c : Cylinder α) (tri : Int × Int × Int) :
    α × α × α :=
  Vec3.cross (Vec3.sub (c.position tri.2.1) (c.position tri.1))
    (Vec3.sub (c.position tri.2.2) (c.position tri.1))

/-- The vertex loop of the constructor (Cylinder.h, lines 20 to 51). -/
def Cylinder.buildVertices {α : Type} [Field α] [DecidableEq α]
    (pi : α) (cosf sinf sqrt : α → α)
    (baseRadius topRadius height : α) (sectorCount stackCount : Int) : List α :=
  let sectorStep : α := 2 * pi / (sectorCount : α)
  let stackStep : α := height / (stackCount : α)
  forLoop (stackCount + 1) (fun i vertices =>
    let zPos : α := -height / 2 + (i : α) * stackStep
    let radius : α := baseRadius + (i : α) / (stackCount : α) * (topRadius - baseRadius)
    forLoop (sectorCount + 1) (fun j vertices =>
      let sectorAngle : α := (j : α) * sectorStep
      let x := radius * cosf sectorAngle
      let y := radius * sinf sectorAngle
      let z := zPos
      let vertices := push_back vertices x
      let vertices := push_back vertices y
      let vertices := push_back vertices z
      let absN := sqrt (x * x + y * y)
      let nx := if absN = 0 then 0 else x / absN
      let ny := if absN = 0 then 0 else y / absN
      let nz : α := 0
      let vertices := push_back vertices nx
      let vertices := push_back vertices ny
      let vertices := push_back vertices nz
      let s : α := (j : α) / (sectorCount : α)
      let t : α := (i : α) / (stackCount : α)
      let vertices := push_back vertices s
      let vertices := push_back vertices t
      vertices) vertices) []

/-- The index loop of the constructor (Cylinder.h, lines 54 to 66).  The `int` values `k1`,
`k2` are stored in the `unsigned int` vector unchanged, being non-negative. -/
def Cylinder.buildIndices (sectorCount stackCount : Int) : List Int :=
  forLoop stackCount (fun i indices =>
    let k1 : Int := i * (sectorCount + 1)
    let k2 : Int := k1 + sectorCount + 1
    (forLoop sectorCount (fun _j (st : List Int × Int × Int) =>
      let indices := st.1
      let k1 := st.2.1
      let k2 := st.2.2
      let indices := push_back indices k1
      let indices := push_back indices k2
      let indices := push_back indices (k1 + 1)
      let indices := push_back indices (k1 + 1)
      let indices := push_back indices k2
      let indices := push_back indices (k2 + 1)
      (indices, k1 + 1, k2 + 1)) (indices, k1, k2)).1) []

/-- The constructor `Cylinder::Cylinder(baseRadius, topRadius, height, sectorCount,
stackCount)`: it validates nothing, runs the vertex loop and the index loop, and leaves the
object with the two arrays filled. -/
def Cylinder.Cylinder {α : Type} [Field α] [DecidableEq α]
    (pi : α) (cosf sinf sqrt : α → α)
    (baseRadius topRadius height : α) (sectorCount stackCount : Int) : Cylinder α :=
  { vertices := Cylinder.buildVertices pi cosf sinf sqrt baseRadius topRadius height
      sectorCount stackCount
    indices := Cylinder.buildIndices sectorCount stackCount }

/-- The eight floats one iteration `(i, j)` of the inner vertex loop pushes: position, normal,
texture coordinates, computed as in `Cylinder.buildVertices`. -/
def Cylinder.vertexRecord {α : Type} [Field α] [DecidableEq α]
    (pi : α) (cosf sinf sqrt : α → α)
    (baseRadius topRadius height : α) (sectorCount stackCount : Int) (i j : Int) : List α :=
  let radius : α := baseRadius + (i : α) / (stackCount : α) * (topRadius - baseRadius)
  let sectorAngle : α := (j : α) * (2 * pi / (sectorCount : α))
  let x := radius * cosf sectorAngle
  let y := radius * sinf sectorAngle
  let absN := sqrt (x * x + y * y)
  [x, y, -height / 2 + (i : α) * (height / (stackCount : α)),
   if absN = 0 then 0 else x / absN, if absN = 0 then 0 else y / absN, 0,
   (j : α) / (sectorCount : α), (i : α) / (stackCount : α)]

/-- The index list as the specification words it (section 4.2): for each stack `i` in
`[0, stackCount-1]` and each sector `j` in `[0, sectorCount-1]`, with `k1 = i*(sectorCount+1)+j`
and `k2 = k1+sectorCount+1`, the two triangles `(k1, k2, k1+1)` and `(k1+1, k2, k2+1)`. -/
def Cylinder.specIndices (sectorCount stackCount : Int) : List Int :=
  (List.range stackCount.toNat).flatMap fun i =>
    (List.range sectorCount.toNat).flatMap fun j =>
      let k1 : Int := (i : Int) * (sectorCount + 1) + (j : Int)
      let k2 : Int := k1 + sectorCount + 1
      [k1, k2, k1 + 1, k1 + 1, k2, k2 + 1]

/-- The preconditions of the specification (section 4.2) on the arguments of the generator:
non-negative radii that are not both zero, a positive height, at least three sectors and at
least one stack. -/
def Cylinder.ValidParams {α : Type} [LinearOrderedField α]
    (baseRadius topRadius height : α) (sectorCount stackCount : Int) : Prop :=
  0 ≤ baseRadius ∧ 0 ≤ topRadius ∧ ¬ (baseRadius = 0 ∧ topRadius = 0) ∧ 0 < height ∧
    3 ≤ sectorCount ∧ 1 ≤ stackCount

/-! ## Triangles of a mesh and their orientation -/

/-- The index list read as triangles, three consecutive indices each (a trailing rest of
fewer than three indices forms no triangle). -/
def triangles : List Int → List (Int × Int × Int)
  | a :: b :: c :: rest => (a, b, c) :: triangles rest
  | _ => []

/-- The two triangles per quad of the specification, as triples. -/
def Cylinder.specTriangles (sectorCount stackCount : Int) : List (Int × Int × Int) :=
  (List.range stackCount.toNat).flatMap fun i =>
    (List.range sectorCount.toNat).flatMap fun j =>
      let k1 : Int := (i : Int) * (sectorCount + 1) + (j : Int)
      let k2 : Int := k1 + sectorCount + 1
      [(k1, k2, k1 + 1), (k1 + 1, k2, k2 + 1)]

/-! ## main.cpp: shading mode, shader uniforms, draw helpers, keyboard input -/

/-- The `enum TexFeatureMode` of main.cpp. -/
inductive TexFeatureMode where
  | TEX_OFF
  | TEX_SIMPLE
  | TEX_BLEND_VERTEX
  | TEX_BLEND_FRAGMENT
  deriving DecidableEq, Repr

/-- The enumerator values written in the declaration of `TexFeatureMode`. -/
def TexFeatureMode.toInt : TexFeatureMode → Int
  | .TEX_OFF => 0
  | .TEX_SIMPLE => 1
  | .TEX_BLEND_VERTEX => 2
  | .TEX_BLEND_FRAGMENT => 3

/-- The `enum CameraMode { FPS, STATIC, TOP, ORBIT }` of main.cpp. -/
inductive CameraMode where
  | FPS
  | STATIC
  | TOP
  | ORBIT
  deriving DecidableEq, Repr

/-- Implicit enumerator values of `CameraMode`. -/
def CameraMode.toInt : CameraMode → Int
  | .FPS => 0
  | .STATIC => 1
  | .TOP => 2
  | .ORBIT => 3

/-- The cast `(CameraMode)n` for the values `n` the program produces (`0..3`). -/
def CameraMode.ofInt (n : Int) : CameraMode :=
  if n = 0 then .FPS else if n = 1 then .STATIC else if n = 2 then .TOP else .ORBIT

/-- What a draw call submits: `glDrawArrays(GL_TRIANGLES, first, count)` or
`glDrawElements(GL_TRIANGLES, count, GL_UNSIGNED_INT, 0)` on the bound vertex array. -/
inductive Primitive where
  | arrays (vao : Nat) (first count : Int)
  | elements (vao : Nat) (count : Nat)
  deriving DecidableEq, Repr

/-- One issued draw call together with the shader uniforms and the texture binding that were in
force when it was issued. -/
structure DrawCall where
  primitive : Primitive
  boolUniform : String → Bool
  intUniform : String → Int
  texture : Nat

/-- The GPU-side handle of a mesh object (`Cylinder`, `Sphere`, `SimpleCone`): its vertex array
and the number of indices (or vertices) its `draw()` submits. -/
structure MeshHandle where
  vao : Nat
  count : Nat
  deriving DecidableEq, Repr

/-- The mutable state the modelled functions of main.cpp act on: the file-scope globals, the
function-local statics of `processInput`, the uniforms of the single shader program
`ourShader`, the part of the OpenGL context the program touches, the window close flag and the
lines written to `std::cout`.

Vector, matrix and float uniforms (`baseColor`, `model`, `time`, the sky and water colours) are
written by the program but never read back and do not interact with the uniforms kept here;
they are not part of the state, and the position, scale and colour arguments of the draw
helpers are dropped with them. -/
structure State where
  gTexMode : TexFeatureMode
  emissiveOn : Bool
  isWireframe : Bool
  currentCameraMode : CameraMode
  currentWrap : Int
  currentFilter : Int
  woodTexture : Nat
  waterTexture : Nat
  canopyTexture : Nat
  keys : Nat → Bool
  isFullscreen : Bool
  boolUniform : String → Bool
  intUniform : String → Int
  activeTexture : Int
  boundTexture2D : Int → Nat
  texParameter : Nat → Nat → Option Int
  boundVertexArray : Nat
  drawCalls : List DrawCall
  windowShouldClose : Bool
  stdout : List String

/-- Modelled from the spec: `Shader::setBool` (Shader.h is not among the sources); it stores a
boolean uniform of the shader program under its name. -/
def State.setBool (s : State) (name : String) (value : Bool) : State :=
  { s with boolUniform := fun n => if n = name then value else s.boolUniform n }

/-- Modelled from the spec: `Shader::setInt` (Shader.h is not among the sources); it stores an
integer uniform of the shader program under its name. -/
def State.setInt (s : State) (name : String) (value : Int) : State :=
  { s with intUniform := fun n => if n = name then value else s.intUniform n }

/-- `glActiveTexture(GL_TEXTURE0 + unit)`. -/
def glActiveTexture (unit : Int) (s : State) : State :=
  { s with activeTexture := unit }

/-- `glBindTexture(GL_TEXTURE_2D, texID)`: binds on the active texture unit. -/
def glBindTexture (texID : Nat) (s : State) : State :=
  { s with boundTexture2D := fun u => if u = s.activeTexture then texID else s.boundTexture2D u }

/-- `glTexParameteri(GL_TEXTURE_2D, pname, value)`: sets a parameter of the texture bound on the
active unit.  The value is the result of an array read, `none` standing for a read outside the
array. -/
def glTexParameteri (pname : Nat) (value : Option Int) (s : State) : State :=
  { s with texParameter := fun t p =>
      if t = s.boundTexture2D s.activeTexture ∧ p = pname then value else s.texParameter t p }

/-- `glBindVertexArray(vao)`. -/
def glBindVertexArray (vao : Nat) (s : State) : State :=
  { s with boundVertexArray := vao }

/-- Records a draw call with a snapshot of the uniforms and of the texture bound on unit
`uTex0`. -/
def State.submit (s : State) (p : Primitive) : State :=
  { s with drawCalls := s.drawCalls ++
      [{ primitive := p, boolUniform := s.boolUniform, intUniform := s.intUniform,
         texture := s.boundTexture2D (s.intUniform "uTex0") }] }

/-- `glDrawArrays(GL_TRIANGLES, first, count)`. -/
def glDrawArrays (first count : Int) (s : State) : State :=
  s.submit (.arrays s.boundVertexArray first count)

/-- `glDrawElements(GL_TRIANGLES, count, GL_UNSIGNED_INT, 0)`. -/
def glDrawElements (count : Nat) (s : State) : State :=
  s.submit (.elements s.boundVertexArray count)

/-- `Cylinder::draw` (and, modelled alike, `Sphere::draw`): bind the vertex array, draw the
indexed triangles, unbind. -/
def MeshHandle.draw (m : MeshHandle) (s : State) : State :=
  glBindVertexArray 0 (glDrawElements m.count (glBindVertexArray m.vao s))

/-- `SimpleCone::draw`: bind the vertex array, `glDrawArrays(GL_TRIANGLES, 0, vertexCount)`,
unbind. -/
def SimpleCone.draw (m : MeshHandle) (s : State) : State :=
  glBindVertexArray 0 (glDrawArrays 0 (m.count : Int) (glBindVertexArray m.vao s))

/-- `applyTexModeToShader`: writes the three shading uniforms from the global `gTexMode`. -/
def applyTexModeToShader (s : State) : State :=
  if s.gTexMode = .TEX_OFF then
    ((s.setBool "uUseTexture" false).setBool "uBlendWithColor" false).setInt "uComputeMode" 1
  else if s.gTexMode = .TEX_SIMPLE then
    ((s.setBool "uUseTexture" true).setBool "uBlendWithColor" false).setInt "uComputeMode" 1
  else if s.gTexMode = .TEX_BLEND_VERTEX then
    ((s.setBool "uUseTexture" true).setBool "uBlendWithColor" true).setInt "uComputeMode" 0
  else
    ((s.setBool "uUseTexture" true).setBool "uBlendWithColor" true).setInt "uComputeMode" 1

/-- `bindTex0(shader, texID, unit)`. -/
def bindTex0 (texID : Nat) (unit : Int) (s : State) : State :=
  (glBindTexture texID (glActiveTexture unit s)).setInt "uTex0" unit

/-- The statement shared by every textured draw helper:
`if (texID != 0 && gTexMode != TEX_OFF) bindTex0(shader, texID, 0);
 else shader.setBool("uUseTexture", false);`. -/
def bindOrDisable (texID : Nat) (s : State) : State :=
  if texID ≠ 0 ∧ s.gTexMode ≠ .TEX_OFF then bindTex0 texID 0 s
  else s.setBool "uUseTexture" false

/-- `drawCube(shader, vao, pos, scale, color, texID)`. -/
def drawCube (vao : Nat) (texID : Nat) (s : State) : State :=
  let s := applyTexModeToShader s
  let s := bindOrDisable texID s
  let s := glBindVertexArray vao s
  glDrawArrays 0 36 s

/-- `drawMug(shader, cylinder, pos, radius, height, color, texID)`: the body, then the
handle. -/
def drawMug (cylinder : MeshHandle) (texID : Nat) (s : State) : State :=
  let s := applyTexModeToShader s
  let s := bindOrDisable texID s
  let s := cylinder.draw s
  let s := s.setBool "uUseTexture" false
  cylinder.draw s

/-- `drawCup(shader, cylinder, pos, radius, height, color, texID)`. -/
def drawCup (cylinder : MeshHandle) (texID : Nat) (s : State) : State :=
  let s := applyTexModeToShader s
  let s := bindOrDisable texID s
  cylinder.draw s

/-- `drawCubeWithOutline`: two untextured cubes. -/
def drawCubeWithOutline (vao : Nat) (s : State) : State :=
  drawCube vao 0 (drawCube vao 0 s)

/-- The lambda `drawPart` of `drawStylizedTableSet`. -/
def drawStylizedTableSet.drawPart (vao : Nat) (texID : Nat) (s : State) : State :=
  let s := applyTexModeToShader s
  let s := bindOrDisable texID s
  let s := glBindVertexArray vao s
  glDrawArrays 0 36 s

/-- The lambda `drawChairPart` of `drawStylizedTableSet`. -/
def drawStylizedTableSet.drawChairPart (vao : Nat) (texID : Nat) (s : State) : State :=
  let s := applyTexModeToShader s
  let s := bindOrDisable texID s
  let s := glBindVertexArray vao s
  glDrawArrays 0 36 s

/-- `drawStylizedTableSet(shader, sphere, cylinder, vao, offset, zDist)`; `cone` is the global
`gCone`. -/
def drawStylizedTableSet (sphere cylinder cone : MeshHandle) (vao : Nat) (s : State) : State :=
  let s := drawStylizedTableSet.drawPart vao s.woodTexture s
  let s := drawStylizedTableSet.drawPart vao s.woodTexture s
  let s := drawMug cylinder s.waterTexture s
  let s := drawCup cylinder s.waterTexture s
  let s := applyTexModeToShader s
  let s := if s.gTexMode ≠ .TEX_OFF then bindTex0 s.waterTexture 0 s
    else s.setBool "uUseTexture" false
  let s := sphere.draw s
  let s := SimpleCone.draw cone s
  let s := drawStylizedTableSet.drawPart vao s.woodTexture s
  let s := drawStylizedTableSet.drawPart vao s.woodTexture s
  let s := drawStylizedTableSet.drawPart vao s.woodTexture s
  let s := drawStylizedTableSet.drawPart vao s.woodTexture s
  forLoop 4 (fun _i s =>
    let s := drawStylizedTableSet.drawChairPart vao s.woodTexture s
    let s := drawStylizedTableSet.drawChairPart vao s.woodTexture s
    let s := drawStylizedTableSet.drawChairPart vao s.woodTexture s
    let s := drawStylizedTableSet.drawChairPart vao s.woodTexture s
    let s := drawStylizedTableSet.drawChairPart vao s.woodTexture s
    drawStylizedTableSet.drawChairPart vao s.woodTexture s) s

/-! Key codes of GLFW (glfw3.h) and enumerants of OpenGL used by `processInput`. -/

def GLFW_KEY_0 : Nat := 48
def GLFW_KEY_1 : Nat := 49
def GLFW_KEY_2 : Nat := 50
def GLFW_KEY_3 : Nat := 51
def GLFW_KEY_4 : Nat := 52
def GLFW_KEY_C : Nat := 67
def GLFW_KEY_F : Nat := 70
def GLFW_KEY_M : Nat := 77
def GLFW_KEY_P : Nat := 80
def GLFW_KEY_R : Nat := 82
def GLFW_KEY_ESCAPE : Nat := 256
def GL_TEXTURE_MAG_FILTER : Nat := 0x2800
def GL_TEXTURE_MIN_FILTER : Nat := 0x2801
def GL_TEXTURE_WRAP_S : Nat := 0x2802
def GL_TEXTURE_WRAP_T : Nat := 0x2803
def GL_NEAREST : Int := 0x2600
def GL_LINEAR : Int := 0x2601
def GL_REPEAT : Int := 0x2901
def GL_CLAMP_TO_EDGE : Int := 0x812F
def GL_MIRRORED_REPEAT : Int := 0x8370

/-- `GLint wrapModes[] = { GL_REPEAT, GL_MIRRORED_REPEAT, GL_CLAMP_TO_EDGE };`. -/
def wrapModes : List Int := [GL_REPEAT, GL_MIRRORED_REPEAT, GL_CLAMP_TO_EDGE]

/-- `GLint filterModes[] = { GL_NEAREST, GL_LINEAR };`. -/
def filterModes : List Int := [GL_NEAREST, GL_LINEAR]

/-- The array read `a[i]` with an `int` index; `none` when the index is outside the array. -/
def arrayRead (a : List Int) (i : Int) : Option Int :=
  if 0 ≤ i then a[i.toNat]? else none

/-- The assignment `keys[key] = value`. -/
def State.setKey (s : State) (key : Nat) (value : Bool) : State :=
  { s with keys := fun k => if k = key then value else s.keys k }

/-- The edge-detection statement `processInput` repeats for every key it handles:
`if (glfwGetKey(window, key) == GLFW_PRESS && !keys[key]) { body }
 else if (glfwGetKey(window, key) == GLFW_RELEASE) keys[key] = false;`. -/
def processInput.onPress (glfwGetKey : Nat → Bool) (key : Nat) (body : State → State)
    (s : State) : State :=
  if glfwGetKey key = true ∧ s.keys key = false then body s
  else if glfwGetKey key = false then s.setKey key false
  else s

/-- The lambda `toggle` of `processInput`, for a flag read by `get` and written by `set`:
`val = !val; keys[key] = true;` on a press edge. -/
def processInput.toggle (glfwGetKey : Nat → Bool) (key : Nat)
    (get : State → Bool) (set : State → Bool → State) (s : State) : State :=
  processInput.onPress glfwGetKey key (fun s => (set s (!get s)).setKey key true) s

/-- The body of the `for (auto t : texs)` loop of the R key. -/
def processInput.applyWrap (s : State) (t : Nat) : State :=
  let s : State := glBindTexture t s
  let s : State := glTexParameteri GL_TEXTURE_WRAP_S (arrayRead wrapModes s.currentWrap) s
  glTexParameteri GL_TEXTURE_WRAP_T (arrayRead wrapModes s.currentWrap) s

/-- The body of the `for (auto t : texs)` loop of the M key. -/
def processInput.applyFilter (s : State) (t : Nat) : State :=
  let s : State := glBindTexture t s
  let s : State := glTexParameteri GL_TEXTURE_MIN_FILTER (arrayRead filterModes s.currentFilter) s
  glTexParameteri GL_TEXTURE_MAG_FILTER (arrayRead filterModes s.currentFilter) s

/-- `processInput(window)`.  `glfwGetKey k` is true when `glfwGetKey(window, k) == GLFW_PRESS`
and false when it is `GLFW_RELEASE`, the only two results of that call.  The camera movement on
W/A/S/D and the `glfwSetWindowMonitor` calls of the fullscreen toggle act on the camera and the
window only and are not modelled. -/
def processInput (glfwGetKey : Nat → Bool) (s : State) : State :=
  let s : State :=
    if glfwGetKey GLFW_KEY_ESCAPE = true then { s with windowShouldClose := true } else s
  let s : State := processInput.toggle glfwGetKey GLFW_KEY_4 (fun s => s.emissiveOn)
    (fun s v => { s with emissiveOn := v }) s
  let s : State := processInput.toggle glfwGetKey GLFW_KEY_P (fun s => s.isWireframe)
    (fun s v => { s with isWireframe := v }) s
  let s : State := processInput.onPress glfwGetKey GLFW_KEY_0 (fun s =>
    let s : State := { s with gTexMode := .TEX_OFF }
    let s : State := s.setKey GLFW_KEY_0 true
    { s with stdout := s.stdout ++ ["TEX_OFF"] }) s
  let s : State := processInput.onPress glfwGetKey GLFW_KEY_1 (fun s =>
    let s : State := { s with gTexMode := .TEX_SIMPLE }
    let s : State := s.setKey GLFW_KEY_1 true
    { s with stdout := s.stdout ++ ["TEX_SIMPLE (no surface color)"] }) s
  let s : State := processInput.onPress glfwGetKey GLFW_KEY_2 (fun s =>
    let s : State := { s with gTexMode := .TEX_BLEND_VERTEX }
    let s : State := s.setKey GLFW_KEY_2 true
    { s with stdout := s.stdout ++ ["TEX_BLEND_VERTEX (computed on vertex)"] }) s
  let s : State := processInput.onPress glfwGetKey GLFW_KEY_3 (fun s =>
    let s : State := { s with gTexMode := .TEX_BLEND_FRAGMENT }
    let s : State := s.setKey GLFW_KEY_3 true
    { s with stdout := s.stdout ++ ["TEX_BLEND_FRAGMENT (computed on fragment)"] }) s
  let s : State := processInput.onPress glfwGetKey GLFW_KEY_F (fun s =>
    let s : State := { s with isFullscreen := !s.isFullscreen }
    s.setKey GLFW_KEY_F true) s
  let s : State := processInput.onPress glfwGetKey GLFW_KEY_C (fun s =>
    let s : State := { s with
      currentCameraMode := CameraMode.ofInt (Int.tmod (s.currentCameraMode.toInt + 1) 4) }
    s.setKey GLFW_KEY_C true) s
  let s : State := processInput.onPress glfwGetKey GLFW_KEY_R (fun s =>
    let s : State := { s with currentWrap := Int.tmod (s.currentWrap + 1) 3 }
    let s : State :=
      [s.woodTexture, s.waterTexture, s.canopyTexture].foldl processInput.applyWrap s
    let s : State := s.setKey GLFW_KEY_R true
    { s with stdout := s.stdout ++ ["Wrap mode changed"] }) s
  processInput.onPress glfwGetKey GLFW_KEY_M (fun s =>
    let s : State := { s with currentFilter := Int.tmod (s.currentFilter + 1) 2 }
    let s : State :=
      [s.woodTexture, s.waterTexture, s.canopyTexture].foldl processInput.applyFilter s
    let s : State := s.setKey GLFW_KEY_M true
    { s with stdout := s.stdout ++ ["Filter mode changed"] }) s

/-- The `uUseTexture`, `uBlendWithColor`, `uComputeMode` uniforms of the shader. -/
def State.shadingTriple (s : State) : Bool × Bool × Int :=
  (s.boolUniform "uUseTexture", s.boolUniform "uBlendWithColor", s.intUniform "uComputeMode")

/-- The same three uniforms as recorded with a draw call. -/
def DrawCall.shadingTriple (d : DrawCall) : Bool × Bool × Int :=
  (d.boolUniform "uUseTexture", d.boolUniform "uBlendWithColor", d.intUniform "uComputeMode")

/-- The resolve table of the specification (section 4.3), with the compute stage written as the
value of `uComputeMode`: `0` for the vertex stage, `1` for the fragment stage. -/
def resolve : TexFeatureMode → Bool × Bool × Int
  | .TEX_OFF => (false, false, 1)
  | .TEX_SIMPLE => (true, false, 1)
  | .TEX_BLEND_VERTEX => (true, true, 0)
  | .TEX_BLEND_FRAGMENT => (true, true, 1)

/-- The digit key that requests a shading mode: `GLFW_KEY_0` to `GLFW_KEY_3`. -/
def digitKey : Fin 4 → Nat
  | 0 => GLFW_KEY_0
  | 1 => GLFW_KEY_1
  | 2 => GLFW_KEY_2
  | 3 => GLFW_KEY_3

/-- The mode each digit key is mapped to (specification, section 6): "0" to Off, "1" to
SimpleTexture, "2" to BlendVertex, "3" to BlendFragment. -/
def modeOfDigit : Fin 4 → TexFeatureMode
  | 0 => .TEX_OFF
  | 1 => .TEX_SIMPLE
  | 2 => .TEX_BLEND_VERTEX
  | 3 => .TEX_BLEND_FRAGMENT

/-- The state when `main` starts: the globals as initialised at file scope, the statics of
`processInput` zero-initialised, no uniform set, nothing bound, nothing drawn or printed. -/
def State.initial : State where
  gTexMode := .TEX_SIMPLE
  emissiveOn := true
  isWireframe := false
  currentCameraMode := .FPS
  currentWrap := 0
  currentFilter := 1
  woodTexture := 0
  waterTexture := 0
  canopyTexture := 0
  keys := fun _ => false
  isFullscreen := false
  boolUniform := fun _ => false
  intUniform := fun _ => 0
  activeTexture := 0
  boundTexture2D := fun _ => 0
  texParameter := fun _ _ => none
  boundVertexArray := 0
  drawCalls := []
  windowShouldClose := false
  stdout := []

/-! ## Further definitions: ring radius, texture creation, the scene, runs of input steps -/

/-- The local variable `radius` of the vertex loop for stack `i`:
`baseRadius + (float)i / stackCount * (topRadius - baseRadius)`, in the exact arithmetic of the
field `α` (no rounding; `Cylinder.ringRadiusBinary32` is the same expression in binary32). -/
def Cylinder.ringRadius {α : Type} [Field α] (baseRadius topRadius : α) (stackCount : Int)
    (i : Int) : α :=
  baseRadius + (i : α) / (stackCount : α) * (topRadius - baseRadius)

/-- `createSolidTextureRGBA(r, g, b, a)`; `tex` is the texture name `glGenTextures` hands out.
The pixel upload is left out; the four parameters are read from `wrapModes[currentWrap]` and
`filterModes[currentFilter]`. -/
def createSolidTextureRGBA (tex : Nat) (s : State) : State :=
  let s : State := glBindTexture tex s
  let s : State := glTexParameteri GL_TEXTURE_WRAP_S (arrayRead wrapModes s.currentWrap) s
  let s : State := glTexParameteri GL_TEXTURE_WRAP_T (arrayRead wrapModes s.currentWrap) s
  let s : State := glTexParameteri GL_TEXTURE_MIN_FILTER
    (arrayRead filterModes s.currentFilter) s
  glTexParameteri GL_TEXTURE_MAG_FILTER (arrayRead filterModes s.currentFilter) s

/-- The successive calls of `processInput` made by the main loop, one per frame, each with the
key states it reads.  The drawing done between two calls writes none of the globals and
statics `processInput` works on. -/
def processInputSteps (inputs : List (Nat → Bool)) (s : State) : State :=
  inputs.foldl (fun s glfwGetKey => processInput glfwGetKey s) s

/-- The key states with no key down. -/
def noKey : Nat → Bool := fun _ => false

/-- The key states with exactly the key `key` down. -/
def onlyKey (key : Nat) : Nat → Bool := fun k => decide (k = key)

/-- The start of `drawRiversideScene` and its section `SKY` (main.cpp, lines 430 to 441): the
three flags are cleared, then the sky cube is drawn through `drawCube` with `texID = 0`. -/
def drawRiversideScene.sky (cubeVAO : Nat) (s : State) : State :=
  let s : State := s.setBool "isDeck" false
  let s : State := s.setBool "isSky" false
  let s : State := s.setBool "isWater" false
  let s : State := s.setBool "isSky" true
  let s : State := s.setBool "uUseTexture" false
  let s : State := s.setInt "uComputeMode" 1
  let s : State := drawCube cubeVAO 0 s
  s.setBool "isSky" false

/-- The section `WATER` of `drawRiversideScene` (lines 444 to 458): the slab is drawn with
`glDrawArrays` directly. -/
def drawRiversideScene.water (cubeVAO : Nat) (s : State) : State :=
  let s : State := s.setBool "isWater" true
  let s : State := s.setBool "uUseTexture" false
  let s : State := s.setInt "uComputeMode" 1
  let s : State := glBindVertexArray cubeVAO s
  let s : State := glDrawArrays 0 36 s
  s.setBool "isWater" false

/-- The section `FLOOR / WOOD` (lines 469 to 477): five textured cubes. -/
def drawRiversideScene.floor (cubeVAO : Nat) (s : State) : State :=
  let s : State := drawCube cubeVAO s.woodTexture s
  let s : State := drawCube cubeVAO s.woodTexture s
  let s : State := drawCube cubeVAO s.woodTexture s
  let s : State := drawCube cubeVAO s.woodTexture s
  drawCube cubeVAO s.woodTexture s

/-- The body of the loop `Canopy frames` for frame `p` (lines 490 to 540): four posts, four
beams, four pairs of bulbs, then two or four table sets. -/
def drawRiversideScene.canopyFrame (sphere cylinder cone : MeshHandle) (cubeVAO : Nat)
    (p : Int) (s : State) : State :=
  let s : State := forLoop 4 (fun _i s => drawCube cubeVAO 0 s) s
  let s : State := drawCube cubeVAO 0 s
  let s : State := drawCube cubeVAO 0 s
  let s : State := drawCube cubeVAO 0 s
  let s : State := drawCube cubeVAO 0 s
  let s : State := forLoop 4 (fun _i s =>
    let s : State := s.setBool "uUseTexture" false
    let s : State := s.setInt "uComputeMode" 1
    let s : State := sphere.draw s
    sphere.draw s) s
  if p = 1 then
    let s : State := drawStylizedTableSet sphere cylinder cone cubeVAO s
    drawStylizedTableSet sphere cylinder cone cubeVAO s
  else
    let s : State := drawStylizedTableSet sphere cylinder cone cubeVAO s
    let s : State := drawStylizedTableSet sphere cylinder cone cubeVAO s
    let s : State := drawStylizedTableSet sphere cylinder cone cubeVAO s
    drawStylizedTableSet sphere cylinder cone cubeVAO s

/-- The body of the loop `Glass Walls` for frame `p` (lines 545 to 559): three cubes with
`canopyTexture` in either branch. -/
def drawRiversideScene.glassWalls (cubeVAO : Nat) (p : Int) (s : State) : State :=
  if p = 1 then
    let s : State := drawCube cubeVAO s.canopyTexture s
    let s : State := drawCube cubeVAO s.canopyTexture s
    drawCube cubeVAO s.canopyTexture s
  else
    let s : State := drawCube cubeVAO s.canopyTexture s
    let s : State := drawCube cubeVAO s.canopyTexture s
    drawCube cubeVAO s.canopyTexture s

/-- The section `Railings` (lines 563 to 575). -/
def drawRiversideScene.railings (cubeVAO : Nat) (s : State) : State :=
  let s : State := drawCube cubeVAO s.canopyTexture s
  let s : State := drawCube cubeVAO s.canopyTexture s
  let s : State := drawCube cubeVAO 0 s
  let s : State := drawCube cubeVAO 0 s
  forLoop 6 (fun _i s =>
    let s : State := drawCube cubeVAO 0 s
    drawCube cubeVAO 0 s) s

/-- `drawRiversideScene(shader, sphere, cylinder, cubeVAO, time)`: its sections in the order
of the source; `cone` is the global `gCone`. -/
def drawRiversideScene (sphere cylinder cone : MeshHandle) (cubeVAO : Nat) (s : State) : State :=
  let s : State := drawRiversideScene.sky cubeVAO s
  let s : State := drawRiversideScene.water cubeVAO s
  let s : State := drawRiversideScene.floor cubeVAO s
  let s : State := forLoop 3 (fun p s =>
    drawRiversideScene.canopyFrame sphere cylinder cone cubeVAO p s) s
  let s : State := forLoop 3 (fun p s => drawRiversideScene.glassWalls cubeVAO p s) s
  drawRiversideScene.railings cubeVAO s

/-- The draw calls of `s'` continue those of `s`: nothing recorded is changed, calls are only
added at the end. -/
def State.drawsExtend (s s' : State) : Prop :=
  ∃ l : List DrawCall, s'.drawCalls = s.drawCalls ++ l

/-- Modelled from the spec: the class `Camera` (Camera.h is not among the sources), reduced
to the one data member main.cpp reads and writes, the field of view `Zoom` in degrees. -/
structure Camera (α : Type) where
  Zoom : α

/-- `scroll_callback(window, xoffset, yoffset)` acting on the global `camera`:
`camera.Zoom -= (float)yoffset;` followed by the two clamping statements.  The scalars are an
ordered field, as elsewhere exact arithmetic in place of `float` and `double`. -/
def scroll_callback {α : Type} [LinearOrderedField α] (_xoffset yoffset : α)
    (camera : Camera α) : Camera α :=
  let camera : Camera α := { camera with Zoom := camera.Zoom - yoffset }
  let camera : Camera α := if camera.Zoom < 1 then { camera with Zoom := 1 } else camera
  if camera.Zoom > 45 then { camera with Zoom := 45 } else camera

/-! ## Binary32 arithmetic for the ring radius -/

/-- A float division whose divisor is checked: `none` when the divisor is zero (a division by
zero), the quotient otherwise. -/
def checkedDiv {α : Type} [Field α] [DecidableEq α] (a b : α) : Option α :=
  if b = 0 then none else some (a / b)

/-- The vertex loop of the constructor (Cylinder.h, lines 20 to 51) once more, statement by
statement as `Cylinder.buildVertices`, with every division `a / b` of the source evaluated by
`checkedDiv`: the result is `none` as soon as one division by zero is evaluated, and the
vertex array otherwise.  The two conditional expressions `(absN == 0) ? 0 : x / absN` and
`(absN == 0) ? 0 : y / absN` evaluate their division only in the `else` branch. -/
def Cylinder.buildVerticesChecked {α : Type} [Field α] [DecidableEq α]
    (pi : α) (cosf sinf sqrt : α → α)
    (baseRadius topRadius height : α) (sectorCount stackCount : Int) : Option (List α) := do
  let sectorStep ← checkedDiv (2 * pi) (sectorCount : α)
  let stackStep ← checkedDiv height (stackCount : α)
  forLoop (stackCount + 1) (fun i (state : Option (List α)) => do
    let vertices ← state
    let half ← checkedDiv (-height) 2
    let zPos : α := half + (i : α) * stackStep
    let fraction ← checkedDiv (i : α) (stackCount : α)
    let radius : α := baseRadius + fraction * (topRadius - baseRadius)
    forLoop (sectorCount + 1) (fun j (state : Option (List α)) => do
      let vertices ← state
      let sectorAngle : α := (j : α) * sectorStep
      let x := radius * cosf sectorAngle
      let y := radius * sinf sectorAngle
      let z := zPos
      let vertices := push_back vertices x
      let vertices := push_back vertices y
      let vertices := push_back vertices z
      let absN := sqrt (x * x + y * y)
      let nx ← (if absN = 0 then some 0 else checkedDiv x absN)
      let ny ← (if absN = 0 then some 0 else checkedDiv y absN)
      let nz : α := 0
      let vertices := push_back vertices nx
      let vertices := push_back vertices ny
      let vertices := push_back vertices nz
      let s ← checkedDiv (j : α) (sectorCount : α)
      let t ← checkedDiv (i : α) (stackCount : α)
      let vertices := push_back vertices s
      let vertices := push_back vertices t
      some vertices) (some vertices)) (some [])

/-! ## Lemmas on the loops and the arrays they build -/

theorem forLoop_append {β : Type} (n : Int) (f : Int → List β) (s : List β) :
    forLoop n (fun i acc => acc ++ f i) s
      = s ++ (List.range n.toNat).flatMap (fun i => f (i : Int)) := by
  unfold forLoop
  generalize List.range n.toNat = l
  induction l generalizing s with
  | nil => simp
  | cons a l ih =>
    rw [List.foldl_cons, ih, List.flatMap_cons, List.append_assoc]
    rfl

theorem forLoop_counters {β : Type} (n : Int) (g : Int → Int → List β)
    (s : List β) (k1 k2 : Int) :
    forLoop n (fun _ (st : List β × Int × Int) =>
        (st.1 ++ g st.2.1 st.2.2, st.2.1 + 1, st.2.2 + 1)) (s, k1, k2)
      = (s ++ (List.range n.toNat).flatMap (fun j => g (k1 + (j : Int)) (k2 + (j : Int))),
          k1 + (n.toNat : Int), k2 + (n.toNat : Int)) := by
  unfold forLoop
  generalize n.toNat = m
  induction m with
  | zero => simp
  | succ m ih =>
    rw [List.range_succ, List.foldl_append, ih]
    simp [List.append_assoc, add_assoc]

theorem Cylinder.buildVertices_eq {α : Type} [Field α] [DecidableEq α]
    (pi : α) (cosf sinf sqrt : α → α)
    (baseRadius topRadius height : α) (sectorCount stackCount : Int) :
    Cylinder.buildVertices pi cosf sinf sqrt baseRadius topRadius height sectorCount stackCount
      = (List.range (stackCount + 1).toNat).flatMap fun i =>
          (List.range (sectorCount + 1).toNat).flatMap fun j =>
            Cylinder.vertexRecord pi cosf sinf sqrt baseRadius topRadius height
              sectorCount stackCount i j := by
  simp only [Cylinder.buildVertices, push_back, List.append_assoc, List.singleton_append,
    List.cons_append, forLoop_append, List.nil_append, Cylinder.vertexRecord]

theorem Cylinder.buildIndices_eq (sectorCount stackCount : Int) :
    Cylinder.buildIndices sectorCount stackCount
      = Cylinder.specIndices sectorCount stackCount := by
  have inner : ∀ (s : List Int) (k1 k2 : Int),
      (forLoop sectorCount (fun _j (st : List Int × Int × Int) =>
        (push_back (push_back (push_back (push_back (push_back (push_back st.1 st.2.1) st.2.2)
          (st.2.1 + 1)) (st.2.1 + 1)) st.2.2) (st.2.2 + 1), st.2.1 + 1, st.2.2 + 1))
        (s, k1, k2)).1
      = s ++ (List.range sectorCount.toNat).flatMap (fun j =>
          [k1 + (j : Int), k2 + (j : Int), k1 + (j : Int) + 1, k1 + (j : Int) + 1,
            k2 + (j : Int), k2 + (j : Int) + 1]) := by
    intro s k1 k2
    have h := forLoop_counters sectorCount
      (fun a b => [a, b, a + 1, a + 1, b, b + 1]) s k1 k2
    simp only [push_back, List.append_assoc, List.singleton_append, List.cons_append,
      List.nil_append] at h ⊢
    rw [h]
  simp only [Cylinder.buildIndices, inner, forLoop_append, List.nil_append, Cylinder.specIndices]
  refine List.flatMap_congr fun i _ => List.flatMap_congr fun j _ => ?_
  have e : (i : Int) * (sectorCount + 1) + sectorCount + 1 + (j : Int)
      = (i : Int) * (sectorCount + 1) + (j : Int) + sectorCount + 1 := by ring
  simp only [e]

theorem List.length_flatMap_const {β γ : Type} (l : List β) (f : β → List γ) (c : Nat)
    (h : ∀ x ∈ l, (f x).length = c) : (l.flatMap f).length = l.length * c := by
  induction l with
  | nil => simp
  | cons a l ih =>
    rw [List.flatMap_cons, List.length_append, h a (List.mem_cons_self a l),
      ih (fun x hx => h x (List.mem_cons_of_mem a hx)), List.length_cons]
    ring

theorem List.getElem?_flatMap_range {γ : Type} (f : Nat → List γ) (c : Nat)
    (h : ∀ i, (f i).length = c) (n i k : Nat) (hi : i < n) (hk : k < c) :
    ((List.range n).flatMap f)[i * c + k]? = (f i)[k]? := by
  induction n with
  | zero => omega
  | succ n ih =>
    have hlen : ((List.range n).flatMap f).length = n * c := by
      rw [List.length_flatMap_const _ f c (fun x _ => h x), List.length_range]
    rw [List.range_succ, List.flatMap_append, List.flatMap_singleton]
    rcases Nat.lt_succ_iff_lt_or_eq.mp hi with hlt | heq
    · have hb : i * c + k < n * c := by
        calc i * c + k < i * c + c := by omega
          _ = (i + 1) * c := by ring
          _ ≤ n * c := Nat.mul_le_mul_right c hlt
      rw [List.getElem?_append_left (by rw [hlen]; exact hb)]
      exact ih hlt
    · subst heq
      rw [List.getElem?_append_right (by rw [hlen]; omega), hlen]
      congr 1
      omega

theorem Cylinder.vertexRecord_length {α : Type} [Field α] [DecidableEq α]
    (pi : α) (cosf sinf sqrt : α → α)
    (baseRadius topRadius height : α) (sectorCount stackCount : Int) (i j : Int) :
    (Cylinder.vertexRecord pi cosf sinf sqrt baseRadius topRadius height
      sectorCount stackCount i j).length = 8 := by
  simp [Cylinder.vertexRecord]

theorem Cylinder.buildVertices_length {α : Type} [Field α] [DecidableEq α]
    (pi : α) (cosf sinf sqrt : α → α)
    (baseRadius topRadius height : α) (sectorCount stackCount : Int) :
    (Cylinder.buildVertices pi cosf sinf sqrt baseRadius topRadius height
      sectorCount stackCount).length
      = (stackCount + 1).toNat * ((sectorCount + 1).toNat * 8) := by
  rw [Cylinder.buildVertices_eq]
  rw [List.length_flatMap_const _ _ ((sectorCount + 1).toNat * 8), List.length_range]
  intro i _
  rw [List.length_flatMap_const _ _ 8, List.length_range]
  intro j _
  exact Cylinder.vertexRecord_length ..

theorem Cylinder.specIndices_length (sectorCount stackCount : Int) :
    (Cylinder.specIndices sectorCount stackCount).length
      = stackCount.toNat * (sectorCount.toNat * 6) := by
  unfold Cylinder.specIndices
  rw [List.length_flatMap_const _ _ (sectorCount.toNat * 6), List.length_range]
  intro i _
  rw [List.length_flatMap_const _ _ 6, List.length_range]
  intro j _
  rfl

theorem Cylinder.mem_specIndices {sectorCount stackCount k : Int}
    (hk : k ∈ Cylinder.specIndices sectorCount stackCount) :
    ∃ i j : Nat, i < stackCount.toNat ∧ j < sectorCount.toNat ∧
      (k = (i : Int) * (sectorCount + 1) + j ∨ k = (i : Int) * (sectorCount + 1) + j + 1 ∨
        k = (i : Int) * (sectorCount + 1) + j + sectorCount + 1 ∨
        k = (i : Int) * (sectorCount + 1) + j + sectorCount + 1 + 1) := by
  unfold Cylinder.specIndices at hk
  rw [List.mem_flatMap] at hk
  obtain ⟨i, hi, hk⟩ := hk
  rw [List.mem_flatMap] at hk
  obtain ⟨j, hj, hk⟩ := hk
  refine ⟨i, j, List.mem_range.mp hi, List.mem_range.mp hj, ?_⟩
  simp only [List.mem_cons, List.mem_singleton, List.not_mem_nil, or_false] at hk
  rcases hk with h | h | h | h | h | h <;> simp [h]

/-- C1: for `sectorCount >= 3` and `stackCount >= 1`, whatever the radii and the height, the
constructor fills `vertices` with exactly `8*(sectorCount+1)*(stackCount+1)` floats, that is
`(sectorCount+1)*(stackCount+1)` vertex records of stride 8. -/
theorem Cylinder.vertex_array_size {α : Type} [Field α] [DecidableEq α]
    (pi : α) (cosf sinf sqrt : α → α)
    (baseRadius topRadius height : α) (sectorCount stackCount : Int)
    (hsector : 3 ≤ sectorCount) (hstack : 1 ≤ stackCount) :
    (((Cylinder.Cylinder pi cosf sinf sqrt baseRadius topRadius height
        sectorCount stackCount).vertices.length : Nat) : Int)
      = 8 * (sectorCount + 1) * (stackCount + 1) ∧
    (Cylinder.Cylinder pi cosf sinf sqrt baseRadius topRadius height
        sectorCount stackCount).vertices.length % 8 = 0 ∧
    (((Cylinder.Cylinder pi cosf sinf sqrt baseRadius topRadius height
        sectorCount stackCount).vertices.length / 8 : Nat) : Int)
      = (sectorCount + 1) * (stackCount + 1) := by
  simp only [Cylinder.Cylinder, Cylinder.buildVertices_length]
  lift sectorCount to ℕ using by omega
  lift stackCount to ℕ using by omega
  have e1 : ((sectorCount : Int) + 1).toNat = sectorCount + 1 := by omega
  have e2 : ((stackCount : Int) + 1).toNat = stackCount + 1 := by omega
  rw [e1, e2]
  have e3 : (stackCount + 1) * ((sectorCount + 1) * 8)
      = 8 * ((sectorCount + 1) * (stackCount + 1)) := by ring
  rw [e3, Nat.mul_mod_right, Nat.mul_div_cancel_left _ (by decide : 0 < 8)]
  refine ⟨?_, rfl, ?_⟩ <;> push_cast <;> ring

/-- The mesh main.cpp builds, `Cylinder(1, 1, 1, 16, 1)`, has 272 floats, 34 vertices. -/
theorem Cylinder.vertex_array_size_witness :
    (((Cylinder.Cylinder Real.pi Real.cos Real.sin Real.sqrt (1 : ℝ) 1 1
        16 1).vertices.length : Nat) : Int) = 8 * (16 + 1) * (1 + 1) ∧
    (Cylinder.Cylinder Real.pi Real.cos Real.sin Real.sqrt (1 : ℝ) 1 1
        16 1).vertices.length % 8 = 0 ∧
    (((Cylinder.Cylinder Real.pi Real.cos Real.sin Real.sqrt (1 : ℝ) 1 1
        16 1).vertices.length / 8 : Nat) : Int) = (16 + 1) * (1 + 1) :=
  Cylinder.vertex_array_size Real.pi Real.cos Real.sin Real.sqrt 1 1 1 16 1
    (by decide) (by decide)

/-- C2: for `sectorCount >= 3` and `stackCount >= 1`, every value of the index list is a valid
vertex ordinal: it is non-negative and strictly below the number of vertices
`len(vertices)/8`, which is `(sectorCount+1)*(stackCount+1)`. -/
theorem Cylinder.indices_in_range {α : Type} [Field α] [DecidableEq α]
    (pi : α) (cosf sinf sqrt : α → α)
    (baseRadius topRadius height : α) (sectorCount stackCount : Int)
    (hsector : 3 ≤ sectorCount) (hstack : 1 ≤ stackCount) :
    (((Cylinder.Cylinder pi cosf sinf sqrt baseRadius topRadius height
        sectorCount stackCount).vertices.length / 8 : Nat) : Int)
      = (sectorCount + 1) * (stackCount + 1) ∧
    ∀ k ∈ (Cylinder.Cylinder pi cosf sinf sqrt baseRadius topRadius height
        sectorCount stackCount).indices,
      0 ≤ k ∧ k < (((Cylinder.Cylinder pi cosf sinf sqrt baseRadius topRadius height
        sectorCount stackCount).vertices.length / 8 : Nat) : Int) := by
  have hlen : (((Cylinder.Cylinder pi cosf sinf sqrt baseRadius topRadius height
        sectorCount stackCount).vertices.length / 8 : Nat) : Int)
      = (sectorCount + 1) * (stackCount + 1) := by
    simp only [Cylinder.Cylinder, Cylinder.buildVertices_length]
    have e3 : (stackCount + 1).toNat * ((sectorCount + 1).toNat * 8)
        = 8 * ((sectorCount + 1).toNat * (stackCount + 1).toNat) := by ring
    rw [e3, Nat.mul_div_cancel_left _ (by decide : 0 < 8)]
    push_cast
    rw [Int.toNat_of_nonneg (by omega), Int.toNat_of_nonneg (by omega)]
  refine ⟨hlen, ?_⟩
  intro k hk
  rw [hlen]
  simp only [Cylinder.Cylinder, Cylinder.buildIndices_eq] at hk
  obtain ⟨i, j, hi, hj, hk⟩ := Cylinder.mem_specIndices hk
  have hi' : (i : Int) + 1 ≤ stackCount := by omega
  have hj' : (j : Int) + 1 ≤ sectorCount := by omega
  have hi0 : (0 : Int) ≤ i := Int.ofNat_nonneg i
  have hj0 : (0 : Int) ≤ j := Int.ofNat_nonneg j
  have hmul : ((i : Int) + 1) * (sectorCount + 1) ≤ stackCount * (sectorCount + 1) :=
    mul_le_mul_of_nonneg_right hi' (by omega)
  have hpos : (0 : Int) ≤ (i : Int) * (sectorCount + 1) :=
    mul_nonneg hi0 (by omega)
  rcases hk with h | h | h | h <;> subst h <;> constructor <;> nlinarith

/-- In `Cylinder(1, 1, 1, 16, 1)` every index is below the 34 vertices. -/
theorem Cylinder.indices_in_range_witness :
    (((Cylinder.Cylinder Real.pi Real.cos Real.sin Real.sqrt (1 : ℝ) 1 1
        16 1).vertices.length / 8 : Nat) : Int) = (16 + 1) * (1 + 1) ∧
    ∀ k ∈ (Cylinder.Cylinder Real.pi Real.cos Real.sin Real.sqrt (1 : ℝ) 1 1 16 1).indices,
      0 ≤ k ∧ k < (((Cylinder.Cylinder Real.pi Real.cos Real.sin Real.sqrt (1 : ℝ) 1 1
        16 1).vertices.length / 8 : Nat) : Int) :=
  Cylinder.indices_in_range Real.pi Real.cos Real.sin Real.sqrt 1 1 1 16 1
    (by decide) (by decide)

/-- C3: for `sectorCount >= 3` and `stackCount >= 1` the index list has
`6*sectorCount*stackCount` entries, a multiple of 3, so the constructor emits exactly
`2*sectorCount*stackCount` triangles. -/
theorem Cylinder.triangle_count {α : Type} [Field α] [DecidableEq α]
    (pi : α) (cosf sinf sqrt : α → α)
    (baseRadius topRadius height : α) (sectorCount stackCount : Int)
    (hsector : 3 ≤ sectorCount) (hstack : 1 ≤ stackCount) :
    (((Cylinder.Cylinder pi cosf sinf sqrt baseRadius topRadius height
        sectorCount stackCount).indices.length : Nat) : Int)
      = 6 * sectorCount * stackCount ∧
    (Cylinder.Cylinder pi cosf sinf sqrt baseRadius topRadius height
        sectorCount stackCount).indices.length % 3 = 0 ∧
    (((Cylinder.Cylinder pi cosf sinf sqrt baseRadius topRadius height
        sectorCount stackCount).indices.length / 3 : Nat) : Int)
      = 2 * sectorCount * stackCount := by
  simp only [Cylinder.Cylinder, Cylinder.buildIndices_eq, Cylinder.specIndices_length]
  lift sectorCount to ℕ using by omega
  lift stackCount to ℕ using by omega
  simp only [Int.toNat_ofNat]
  have e3 : stackCount * (sectorCount * 6) = 3 * (2 * sectorCount * stackCount) := by ring
  rw [e3, Nat.mul_mod_right, Nat.mul_div_cancel_left _ (by decide : 0 < 3)]
  refine ⟨?_, rfl, ?_⟩ <;> push_cast <;> ring

/-- The mesh `Cylinder(1, 1, 1, 16, 1)` has 96 indices, 32 triangles. -/
theorem Cylinder.triangle_count_witness :
    (((Cylinder.Cylinder Real.pi Real.cos Real.sin Real.sqrt (1 : ℝ) 1 1
        16 1).indices.length : Nat) : Int) = 6 * 16 * 1 ∧
    (Cylinder.Cylinder Real.pi Real.cos Real.sin Real.sqrt (1 : ℝ) 1 1
        16 1).indices.length % 3 = 0 ∧
    (((Cylinder.Cylinder Real.pi Real.cos Real.sin Real.sqrt (1 : ℝ) 1 1
        16 1).indices.length / 3 : Nat) : Int) = 2 * 16 * 1 :=
  Cylinder.triangle_count Real.pi Real.cos Real.sin Real.sqrt 1 1 1 16 1
    (by decide) (by decide)

/-- C5: the index list built by the constructor is, stack by stack for `i` in
`[0, stackCount-1]` and inside a stack sector by sector for `j` in `[0, sectorCount-1]`, the six
values `k1, k2, k1+1, k1+1, k2, k2+1` with `k1 = i*(sectorCount+1)+j` and
`k2 = k1+sectorCount+1`; the scheme is the same for every stack pair (no polar special case).
This holds for all arguments, in particular for every valid parameter set. -/
theorem Cylinder.indices_eq_specIndices {α : Type} [Field α] [DecidableEq α]
    (pi : α) (cosf sinf sqrt : α → α)
    (baseRadius topRadius height : α) (sectorCount stackCount : Int) :
    (Cylinder.Cylinder pi cosf sinf sqrt baseRadius topRadius height
        sectorCount stackCount).indices
      = Cylinder.specIndices sectorCount stackCount := by
  show Cylinder.buildIndices sectorCount stackCount = Cylinder.specIndices sectorCount stackCount
  have inner : ∀ (acc : List Int) (k1 k2 : Int),
      (forLoop sectorCount (fun _j (st : List Int × Int × Int) =>
        (push_back (push_back (push_back (push_back (push_back (push_back st.1 st.2.1) st.2.2)
          (st.2.1 + 1)) (st.2.1 + 1)) st.2.2) (st.2.2 + 1), st.2.1 + 1, st.2.2 + 1))
        (acc, k1, k2)).1
      = acc ++ (List.range sectorCount.toNat).flatMap (fun j =>
          [k1 + (j : Int), k2 + (j : Int), k1 + (j : Int) + 1, k1 + (j : Int) + 1,
            k2 + (j : Int), k2 + (j : Int) + 1]) := by
    intro acc k1 k2
    have h := forLoop_counters sectorCount
      (fun a b => [a, b, a + 1, a + 1, b, b + 1]) acc k1 k2
    simp only [push_back, List.append_assoc, List.singleton_append, List.cons_append,
      List.nil_append] at h ⊢
    rw [h]
  unfold Cylinder.buildIndices Cylinder.specIndices
  simp only [inner, forLoop_append, List.nil_append]
  refine List.flatMap_congr fun i _ => List.flatMap_congr fun j _ => ?_
  have e : (i : Int) * (sectorCount + 1) + sectorCount + 1 + (j : Int)
      = (i : Int) * (sectorCount + 1) + (j : Int) + sectorCount + 1 := by ring
  simp only [e]

theorem Cylinder.vertices_getElem? {α : Type} [Field α] [DecidableEq α]
    (pi : α) (cosf sinf sqrt : α → α)
    (baseRadius topRadius height : α) (sectorCount stackCount i j k : Nat)
    (hi : i ≤ stackCount) (hj : j ≤ sectorCount) (hk : k < 8) :
    (Cylinder.Cylinder pi cosf sinf sqrt baseRadius topRadius height
        (sectorCount : Int) (stackCount : Int)).vertices[8 * (i * (sectorCount + 1) + j) + k]?
      = (Cylinder.vertexRecord pi cosf sinf sqrt baseRadius topRadius height
          (sectorCount : Int) (stackCount : Int) (i : Int) (j : Int))[k]? := by
  simp only [Cylinder.Cylinder, Cylinder.buildVertices_eq]
  have e1 : ((sectorCount : Int) + 1).toNat = sectorCount + 1 := by omega
  have e2 : ((stackCount : Int) + 1).toNat = stackCount + 1 := by omega
  rw [e1, e2]
  have hidx : 8 * (i * (sectorCount + 1) + j) + k
      = i * ((sectorCount + 1) * 8) + (j * 8 + k) := by ring
  rw [hidx]
  rw [List.getElem?_flatMap_range
    (fun i : Nat => (List.range (sectorCount + 1)).flatMap fun j : Nat =>
      Cylinder.vertexRecord pi cosf sinf sqrt baseRadius topRadius height
        (sectorCount : Int) (stackCount : Int) (i : Int) (j : Int))
    ((sectorCount + 1) * 8) ?_ (stackCount + 1) i (j * 8 + k) (by omega) ?_]
  · exact List.getElem?_flatMap_range
      (fun j : Nat => Cylinder.vertexRecord pi cosf sinf sqrt baseRadius topRadius height
        (sectorCount : Int) (stackCount : Int) (i : Int) (j : Int))
      8 (fun j => Cylinder.vertexRecord_length ..) (sectorCount + 1) j k (by omega) hk
  · intro i
    rw [List.length_flatMap_const _ _ 8 (fun j _ => Cylinder.vertexRecord_length ..),
      List.length_range]
  · calc j * 8 + k < j * 8 + 8 := by omega
      _ = (j + 1) * 8 := by ring
      _ ≤ (sectorCount + 1) * 8 := Nat.mul_le_mul_right 8 (by omega)

/-- C4: for every valid parameter set, stack `i` in `[0, stackCount]` and sector `j` in
`[0, sectorCount]`, the record of the vertex with ordinal `i*(sectorCount+1)+j` starts with
the position `(radius_i*cos θ, radius_i*sin θ, z)` where `θ = j*(2π/sectorCount)`,
`z = -height/2 + i*(height/stackCount)` and
`radius_i = baseRadius + (i/stackCount)*(topRadius-baseRadius)`, over the reals; ring `0` has
radius `baseRadius` and lies at `z = -height/2`, ring `stackCount` has radius `topRadius` and
lies at `z = +height/2`. -/
theorem Cylinder.vertex_position (baseRadius topRadius height : ℝ)
    (sectorCount stackCount : Int)
    (hvalid : Cylinder.ValidParams baseRadius topRadius height sectorCount stackCount)
    (i j : Int) (hi0 : 0 ≤ i) (hi : i ≤ stackCount) (hj0 : 0 ≤ j) (hj : j ≤ sectorCount) :
    ((Cylinder.Cylinder Real.pi Real.cos Real.sin Real.sqrt baseRadius topRadius height
        sectorCount stackCount).vertices[(8 * (i * (sectorCount + 1) + j)).toNat]?
      = some ((baseRadius + ((i : ℝ) / (stackCount : ℝ)) * (topRadius - baseRadius))
          * Real.cos ((j : ℝ) * (2 * Real.pi / (sectorCount : ℝ)))) ∧
    (Cylinder.Cylinder Real.pi Real.cos Real.sin Real.sqrt baseRadius topRadius height
        sectorCount stackCount).vertices[(8 * (i * (sectorCount + 1) + j)).toNat + 1]?
      = some ((baseRadius + ((i : ℝ) / (stackCount : ℝ)) * (topRadius - baseRadius))
          * Real.sin ((j : ℝ) * (2 * Real.pi / (sectorCount : ℝ)))) ∧
    (Cylinder.Cylinder Real.pi Real.cos Real.sin Real.sqrt baseRadius topRadius height
        sectorCount stackCount).vertices[(8 * (i * (sectorCount + 1) + j)).toNat + 2]?
      = some (-height / 2 + (i : ℝ) * (height / (stackCount : ℝ)))) ∧
    (baseRadius + (((0 : Int) : ℝ) / (stackCount : ℝ)) * (topRadius - baseRadius) = baseRadius ∧
      -height / 2 + ((0 : Int) : ℝ) * (height / (stackCount : ℝ)) = -height / 2) ∧
    (baseRadius + ((stackCount : ℝ) / (stackCount : ℝ)) * (topRadius - baseRadius) = topRadius ∧
      -height / 2 + (stackCount : ℝ) * (height / (stackCount : ℝ)) = height / 2) := by
  obtain ⟨_, _, _, _, hsector, hstack⟩ := hvalid
  have hst : (stackCount : ℝ) ≠ 0 := by
    have : (0 : ℝ) < (stackCount : ℝ) := by exact_mod_cast (by omega : (0 : Int) < stackCount)
    exact ne_of_gt this
  refine ⟨?_, ⟨by simp, by simp⟩, ⟨?_, ?_⟩⟩
  · lift sectorCount to ℕ using by omega
    lift stackCount to ℕ using by omega
    lift i to ℕ using hi0
    lift j to ℕ using hj0
    have hidx : (8 * ((i : Int) * ((sectorCount : Int) + 1) + (j : Int))).toNat
        = 8 * (i * (sectorCount + 1) + j) := by
      have : (8 * ((i : Int) * ((sectorCount : Int) + 1) + (j : Int)))
          = ((8 * (i * (sectorCount + 1) + j) : Nat) : Int) := by push_cast; ring
      rw [this, Int.toNat_ofNat]
    rw [hidx]
    have h0 := Cylinder.vertices_getElem? Real.pi Real.cos Real.sin Real.sqrt
      baseRadius topRadius height sectorCount stackCount i j 0
      (by exact_mod_cast hi) (by exact_mod_cast hj) (by decide)
    have h1 := Cylinder.vertices_getElem? Real.pi Real.cos Real.sin Real.sqrt
      baseRadius topRadius height sectorCount stackCount i j 1
      (by exact_mod_cast hi) (by exact_mod_cast hj) (by decide)
    have h2 := Cylinder.vertices_getElem? Real.pi Real.cos Real.sin Real.sqrt
      baseRadius topRadius height sectorCount stackCount i j 2
      (by exact_mod_cast hi) (by exact_mod_cast hj) (by decide)
    rw [Nat.add_zero] at h0
    rw [h0, h1, h2]
    simp [Cylinder.vertexRecord]
  · rw [div_self hst]; ring
  · field_simp; ring

/-- The position of the vertex at stack 1, sector 4 of `Cylinder(1, 1, 1, 16, 1)`. -/
theorem Cylinder.vertex_position_witness :
    ((Cylinder.Cylinder Real.pi Real.cos Real.sin Real.sqrt 1 1 1
        16 1).vertices[(8 * ((1 : Int) * (16 + 1) + 4)).toNat]?
      = some (((1 : ℝ) + (((1 : Int) : ℝ) / ((1 : Int) : ℝ)) * (1 - 1))
          * Real.cos (((4 : Int) : ℝ) * (2 * Real.pi / ((16 : Int) : ℝ)))) ∧
    (Cylinder.Cylinder Real.pi Real.cos Real.sin Real.sqrt 1 1 1
        16 1).vertices[(8 * ((1 : Int) * (16 + 1) + 4)).toNat + 1]?
      = some (((1 : ℝ) + (((1 : Int) : ℝ) / ((1 : Int) : ℝ)) * (1 - 1))
          * Real.sin (((4 : Int) : ℝ) * (2 * Real.pi / ((16 : Int) : ℝ)))) ∧
    (Cylinder.Cylinder Real.pi Real.cos Real.sin Real.sqrt 1 1 1
        16 1).vertices[(8 * ((1 : Int) * (16 + 1) + 4)).toNat + 2]?
      = some (-(1 : ℝ) / 2 + ((1 : Int) : ℝ) * (1 / ((1 : Int) : ℝ)))) ∧
    ((1 : ℝ) + (((0 : Int) : ℝ) / ((1 : Int) : ℝ)) * (1 - 1) = 1 ∧
      -(1 : ℝ) / 2 + ((0 : Int) : ℝ) * (1 / ((1 : Int) : ℝ)) = -1 / 2) ∧
    ((1 : ℝ) + (((1 : Int) : ℝ) / ((1 : Int) : ℝ)) * (1 - 1) = 1 ∧
      -(1 : ℝ) / 2 + ((1 : Int) : ℝ) * (1 / ((1 : Int) : ℝ)) = 1 / 2) :=
  Cylinder.vertex_position 1 1 1 16 1
    ⟨by norm_num, by norm_num, by norm_num, by norm_num, by decide, by decide⟩
    1 4 (by decide) (by decide) (by decide) (by decide)

theorem triangles_flatMap {β : Type} (f : β → List Int) (g : β → List (Int × Int × Int))
    (h : ∀ x rest, triangles (f x ++ rest) = g x ++ triangles rest) (l : List β)
    (rest : List Int) :
    triangles (l.flatMap f ++ rest) = l.flatMap g ++ triangles rest := by
  induction l with
  | nil => simp
  | cons a l ih =>
    rw [List.flatMap_cons, List.flatMap_cons, List.append_assoc, h, ih, List.append_assoc]

theorem Cylinder.triangles_specIndices (sectorCount stackCount : Int) :
    triangles (Cylinder.specIndices sectorCount stackCount)
      = Cylinder.specTriangles sectorCount stackCount := by
  have h := triangles_flatMap
    (fun i : Nat => (List.range sectorCount.toNat).flatMap fun j : Nat =>
      [(i : Int) * (sectorCount + 1) + (j : Int),
        (i : Int) * (sectorCount + 1) + (j : Int) + sectorCount + 1,
        (i : Int) * (sectorCount + 1) + (j : Int) + 1,
        (i : Int) * (sectorCount + 1) + (j : Int) + 1,
        (i : Int) * (sectorCount + 1) + (j : Int) + sectorCount + 1,
        (i : Int) * (sectorCount + 1) + (j : Int) + sectorCount + 1 + 1])
    (fun i : Nat => (List.range sectorCount.toNat).flatMap fun j : Nat =>
      [((i : Int) * (sectorCount + 1) + (j : Int),
          (i : Int) * (sectorCount + 1) + (j : Int) + sectorCount + 1,
          (i : Int) * (sectorCount + 1) + (j : Int) + 1),
        ((i : Int) * (sectorCount + 1) + (j : Int) + 1,
          (i : Int) * (sectorCount + 1) + (j : Int) + sectorCount + 1,
          (i : Int) * (sectorCount + 1) + (j : Int) + sectorCount + 1 + 1)])
    (fun i rest => triangles_flatMap _ _ (fun j rest => by simp [triangles]) _ rest)
    (List.range stackCount.toNat) []
  simpa [Cylinder.specIndices, Cylinder.specTriangles, triangles] using h

theorem Cylinder.mem_triangles {α : Type} [Field α] [DecidableEq α]
    (pi : α) (cosf sinf sqrt : α → α)
    (baseRadius topRadius height : α) (sectorCount stackCount : Nat) (tri : Int × Int × Int)
    (h : tri ∈ triangles (Cylinder.Cylinder pi cosf sinf sqrt baseRadius topRadius height
      (sectorCount : Int) (stackCount : Int)).indices) :
    ∃ i j : Nat, i < stackCount ∧ j < sectorCount ∧
      (tri = ((((i * (sectorCount + 1) + j : Nat) : Int)),
          (((i + 1) * (sectorCount + 1) + j : Nat) : Int),
          ((i * (sectorCount + 1) + (j + 1) : Nat) : Int)) ∨
        tri = (((i * (sectorCount + 1) + (j + 1) : Nat) : Int),
          (((i + 1) * (sectorCount + 1) + j : Nat) : Int),
          (((i + 1) * (sectorCount + 1) + (j + 1) : Nat) : Int))) := by
  simp only [Cylinder.Cylinder, Cylinder.buildIndices_eq, Cylinder.triangles_specIndices,
    Cylinder.specTriangles, List.mem_flatMap, List.mem_range, Int.toNat_ofNat] at h
  obtain ⟨i, hi, j, hj, h⟩ := h
  refine ⟨i, j, hi, hj, ?_⟩
  simp only [List.mem_cons, List.mem_singleton, List.not_mem_nil, or_false] at h
  rcases h with h | h
  · left; rw [h]; simp only [Prod.mk.injEq]; refine ⟨?_, ?_, ?_⟩ <;> push_cast <;> ring
  · right; rw [h]; simp only [Prod.mk.injEq]; refine ⟨?_, ?_, ?_⟩ <;> push_cast <;> ring

theorem Cylinder.position_eq (baseRadius topRadius height : ℝ)
    (sectorCount stackCount i j : Nat) (hi : i ≤ stackCount) (hj : j ≤ sectorCount) :
    (Cylinder.Cylinder Real.pi Real.cos Real.sin Real.sqrt baseRadius topRadius height
        (sectorCount : Int) (stackCount : Int)).position ((i * (sectorCount + 1) + j : Nat) : Int)
      = ((baseRadius + (i : ℝ) / (stackCount : ℝ) * (topRadius - baseRadius))
            * Real.cos ((j : ℝ) * (2 * Real.pi / (sectorCount : ℝ))),
          (baseRadius + (i : ℝ) / (stackCount : ℝ) * (topRadius - baseRadius))
            * Real.sin ((j : ℝ) * (2 * Real.pi / (sectorCount : ℝ))),
          -height / 2 + (i : ℝ) * (height / (stackCount : ℝ))) := by
  have hidx : (8 * ((i * (sectorCount + 1) + j : Nat) : Int)).toNat
      = 8 * (i * (sectorCount + 1) + j) := by omega
  have h0 := Cylinder.vertices_getElem? Real.pi Real.cos Real.sin Real.sqrt
    baseRadius topRadius height sectorCount stackCount i j 0 hi hj (by decide)
  have h1 := Cylinder.vertices_getElem? Real.pi Real.cos Real.sin Real.sqrt
    baseRadius topRadius height sectorCount stackCount i j 1 hi hj (by decide)
  have h2 := Cylinder.vertices_getElem? Real.pi Real.cos Real.sin Real.sqrt
    baseRadius topRadius height sectorCount stackCount i j 2 hi hj (by decide)
  rw [Nat.add_zero] at h0
  simp only [Cylinder.position, hidx, List.getD_eq_getElem?_getD, h0, h1, h2]
  simp [Cylinder.vertexRecord]

theorem Cylinder.ringRadius_nonneg (baseRadius topRadius : ℝ) (hb : 0 ≤ baseRadius)
    (ht : 0 ≤ topRadius) (stackCount i : Nat) (hn : 0 < stackCount) (hi : i ≤ stackCount) :
    0 ≤ baseRadius + (i : ℝ) / (stackCount : ℝ) * (topRadius - baseRadius) := by
  have hn' : (0 : ℝ) < (stackCount : ℝ) := by exact_mod_cast hn
  have h0 : 0 ≤ (i : ℝ) / (stackCount : ℝ) := div_nonneg (Nat.cast_nonneg i) hn'.le
  have h1 : (i : ℝ) / (stackCount : ℝ) ≤ 1 := by
    rw [div_le_one hn']
    exact_mod_cast hi
  have e : baseRadius + (i : ℝ) / (stackCount : ℝ) * (topRadius - baseRadius)
      = (1 - (i : ℝ) / (stackCount : ℝ)) * baseRadius
        + (i : ℝ) / (stackCount : ℝ) * topRadius := by ring
  rw [e]
  exact add_nonneg (mul_nonneg (by linarith) hb) (mul_nonneg h0 ht)

theorem Cylinder.sin_sectorStep_pos (sectorCount : Nat) (h : 3 ≤ sectorCount) :
    0 < Real.sin (2 * Real.pi / (sectorCount : ℝ)) := by
  have hn : (3 : ℝ) ≤ (sectorCount : ℝ) := by exact_mod_cast h
  have hpos : (0 : ℝ) < (sectorCount : ℝ) := by linarith
  apply Real.sin_pos_of_pos_of_lt_pi
  · exact div_pos (by positivity) hpos
  · rw [div_lt_iff₀ hpos]
    nlinarith [Real.pi_pos]

theorem Cylinder.sin_step (j : Nat) (step : ℝ) :
    Real.sin (((j + 1 : Nat) : ℝ) * step) * Real.cos ((j : ℝ) * step)
      - Real.cos (((j + 1 : Nat) : ℝ) * step) * Real.sin ((j : ℝ) * step) = Real.sin step := by
  rw [← Real.sin_sub]
  congr 1
  push_cast
  ring

theorem Cylinder.normal_eq (baseRadius topRadius height : ℝ)
    (sectorCount stackCount i j : Nat) (hi : i ≤ stackCount) (hj : j ≤ sectorCount)
    (hr : 0 ≤ baseRadius + (i : ℝ) / (stackCount : ℝ) * (topRadius - baseRadius)) :
    (Cylinder.Cylinder Real.pi Real.cos Real.sin Real.sqrt baseRadius topRadius height
        (sectorCount : Int) (stackCount : Int)).normal ((i * (sectorCount + 1) + j : Nat) : Int)
      = if baseRadius + (i : ℝ) / (stackCount : ℝ) * (topRadius - baseRadius) = 0
        then (0, 0, 0)
        else (Real.cos ((j : ℝ) * (2 * Real.pi / (sectorCount : ℝ))),
          Real.sin ((j : ℝ) * (2 * Real.pi / (sectorCount : ℝ))), 0) := by
  have hidx : (8 * ((i * (sectorCount + 1) + j : Nat) : Int)).toNat
      = 8 * (i * (sectorCount + 1) + j) := by omega
  have h3 := Cylinder.vertices_getElem? Real.pi Real.cos Real.sin Real.sqrt
    baseRadius topRadius height sectorCount stackCount i j 3 hi hj (by decide)
  have h4 := Cylinder.vertices_getElem? Real.pi Real.cos Real.sin Real.sqrt
    baseRadius topRadius height sectorCount stackCount i j 4 hi hj (by decide)
  have h5 := Cylinder.vertices_getElem? Real.pi Real.cos Real.sin Real.sqrt
    baseRadius topRadius height sectorCount stackCount i j 5 hi hj (by decide)
  simp only [Cylinder.normal, hidx, List.getD_eq_getElem?_getD, h3, h4, h5]
  generalize hrdef : baseRadius + (i : ℝ) / (stackCount : ℝ) * (topRadius - baseRadius) = r
    at hr
  generalize hθ : (j : ℝ) * (2 * Real.pi / (sectorCount : ℝ)) = θ
  have hsq : Real.sqrt (r * Real.cos θ * (r * Real.cos θ) + r * Real.sin θ * (r * Real.sin θ))
      = r := by
    have e : r * Real.cos θ * (r * Real.cos θ) + r * Real.sin θ * (r * Real.sin θ) = r ^ 2 := by
      have := Real.cos_sq_add_sin_sq θ
      linear_combination (r ^ 2) * this
    rw [e, Real.sqrt_sq hr]
  simp only [Cylinder.vertexRecord, Int.cast_natCast, hrdef, hθ, hsq, List.getElem?_cons_succ,
    List.getElem?_cons_zero, Option.getD_some]
  by_cases h0 : r = 0
  · simp [h0]
  · simp only [h0, if_false, Prod.mk.injEq, and_true]
    exact ⟨mul_div_cancel_left₀ _ h0, mul_div_cancel_left₀ _ h0⟩

theorem Cylinder.normal_dot_first (hs r0 r1 C S C' S' z0 z1 X Y : ℝ) (hz : z1 - z0 = hs) :
    Vec3.dot (Vec3.cross (Vec3.sub (r1 * C, r1 * S, z1) (r0 * C, r0 * S, z0))
      (Vec3.sub (r0 * C', r0 * S', z0) (r0 * C, r0 * S, z0))) (X, Y, 0)
      = -(hs * r0 * ((S' - S) * X - (C' - C) * Y)) := by
  simp only [Vec3.dot, Vec3.cross, Vec3.sub]
  rw [← hz]
  ring

theorem Cylinder.normal_dot_second (hs r0 r1 C S C' S' z0 z1 X Y : ℝ) (hz : z1 - z0 = hs) :
    Vec3.dot (Vec3.cross (Vec3.sub (r1 * C, r1 * S, z1) (r0 * C', r0 * S', z0))
      (Vec3.sub (r1 * C', r1 * S', z1) (r0 * C', r0 * S', z0))) (X, Y, 0)
      = -(hs * r1 * ((S' - S) * X - (C' - C) * Y)) := by
  simp only [Vec3.dot, Vec3.cross, Vec3.sub]
  rw [← hz]
  ring

theorem Cylinder.vertex_side (N : ℝ × ℝ × ℝ) (hs rr sd dS dC : ℝ)
    (hN : ∀ X Y : ℝ, Vec3.dot N (X, Y, 0) = -(hs * rr * (dS * X - dC * Y)))
    (hhs : 0 < hs) (hrr : 0 < rr) (hsd : 0 < sd) (rv Cv Sv : ℝ) (hrv : 0 ≤ rv)
    (hv : dS * Cv - dC * Sv = sd) (rad nor : ℝ × ℝ × ℝ) (hrad : rad = (rv * Cv, rv * Sv, 0))
    (hnor : nor = if rv = 0 then (0, 0, 0) else (Cv, Sv, 0)) :
    Vec3.dot N rad ≤ 0 ∧ Vec3.dot N nor ≤ 0 ∧
      (rad ≠ (0, 0, 0) → Vec3.dot N rad < 0 ∧ Vec3.dot N nor < 0) := by
  have e1 : Vec3.dot N rad = -(hs * rr * rv * sd) := by
    rw [hrad, hN, ← hv]; ring
  have e2 : Vec3.dot N (Cv, Sv, 0) = -(hs * rr * sd) := by
    rw [hN, ← hv]
  have e0 : Vec3.dot N (0, 0, 0) = 0 := by
    rw [hN]; ring
  have p1 : 0 ≤ hs * rr * rv * sd := by positivity
  have p2 : 0 < hs * rr * sd := by positivity
  refine ⟨by rw [e1]; linarith, ?_, ?_⟩
  · rw [hnor]
    split
    · rw [e0]
    · rw [e2]; linarith
  · intro hne
    have hrv' : rv ≠ 0 := by
      intro h
      apply hne
      rw [hrad, h]
      simp
    have hpos : 0 < rv := lt_of_le_of_ne hrv (Ne.symm hrv')
    have p3 : 0 < hs * rr * rv * sd := by positivity
    refine ⟨by rw [e1]; linarith, ?_⟩
    rw [hnor, if_neg hrv', e2]
    linarith

theorem Cylinder.radial_ne_zero (r C S : ℝ) (hr : r ≠ 0) (h : C ^ 2 + S ^ 2 = 1) :
    (r * C, r * S, (0 : ℝ)) ≠ (0, 0, 0) := by
  intro h0
  simp only [Prod.mk.injEq, mul_eq_zero, and_true] at h0
  rcases h0 with ⟨h1 | h1, h2 | h2⟩
  · exact hr h1
  · exact hr h1
  · exact hr h2
  · rw [h1, h2] at h; norm_num at h
/-- C6 (as the code has it): for every valid parameter set and every emitted triangle
`(a, b, c)` of non-zero area, the vertices appear clockwise when seen from outside the
surface.  The geometric normal `(p_b - p_a) × (p_c - p_a)` has a non-positive dot product with
the radial direction `(x, y, 0)` and with the stored normal of each of the three vertices, and
a strictly negative one at every vertex that does not lie on the axis; the third vertex `c`
never lies on the axis.  The geometric normal so points inwards, against the stored outward
vertex normals (over the reals). -/
theorem Cylinder.winding_clockwise (baseRadius topRadius height : ℝ)
    (sectorCount stackCount : Int)
    (hvalid : Cylinder.ValidParams baseRadius topRadius height sectorCount stackCount) :
    ∀ tri ∈ triangles (Cylinder.Cylinder Real.pi Real.cos Real.sin Real.sqrt
        baseRadius topRadius height sectorCount stackCount).indices,
      (Cylinder.Cylinder Real.pi Real.cos Real.sin Real.sqrt
        baseRadius topRadius height sectorCount stackCount).triangleNormal tri ≠ (0, 0, 0) →
      (∀ v ∈ [tri.1, tri.2.1, tri.2.2],
        Vec3.dot ((Cylinder.Cylinder Real.pi Real.cos Real.sin Real.sqrt
            baseRadius topRadius height sectorCount stackCount).triangleNormal tri)
          ((Cylinder.Cylinder Real.pi Real.cos Real.sin Real.sqrt
            baseRadius topRadius height sectorCount stackCount).radial v) ≤ 0 ∧
        Vec3.dot ((Cylinder.Cylinder Real.pi Real.cos Real.sin Real.sqrt
            baseRadius topRadius height sectorCount stackCount).triangleNormal tri)
          ((Cylinder.Cylinder Real.pi Real.cos Real.sin Real.sqrt
            baseRadius topRadius height sectorCount stackCount).normal v) ≤ 0 ∧
        ((Cylinder.Cylinder Real.pi Real.cos Real.sin Real.sqrt
            baseRadius topRadius height sectorCount stackCount).radial v ≠ (0, 0, 0) →
          Vec3.dot ((Cylinder.Cylinder Real.pi Real.cos Real.sin Real.sqrt
              baseRadius topRadius height sectorCount stackCount).triangleNormal tri)
            ((Cylinder.Cylinder Real.pi Real.cos Real.sin Real.sqrt
              baseRadius topRadius height sectorCount stackCount).radial v) < 0 ∧
          Vec3.dot ((Cylinder.Cylinder Real.pi Real.cos Real.sin Real.sqrt
              baseRadius topRadius height sectorCount stackCount).triangleNormal tri)
            ((Cylinder.Cylinder Real.pi Real.cos Real.sin Real.sqrt
              baseRadius topRadius height sectorCount stackCount).normal v) < 0)) ∧
      (Cylinder.Cylinder Real.pi Real.cos Real.sin Real.sqrt
        baseRadius topRadius height sectorCount stackCount).radial tri.2.2 ≠ (0, 0, 0) := by
  obtain ⟨hb, ht, _, hh, hsector, hstack⟩ := hvalid
  lift sectorCount to ℕ using by omega
  lift stackCount to ℕ using by omega
  have hsector' : 3 ≤ sectorCount := by exact_mod_cast hsector
  have hstack' : 1 ≤ stackCount := by exact_mod_cast hstack
  intro tri htri hN
  obtain ⟨i, j, hi, hj, h⟩ := Cylinder.mem_triangles _ _ _ _ _ _ _ _ _ tri htri
  have hr0 := Cylinder.ringRadius_nonneg baseRadius topRadius hb ht stackCount i
    (by omega) (by omega)
  have hr1 := Cylinder.ringRadius_nonneg baseRadius topRadius hb ht stackCount (i + 1)
    (by omega) (by omega)
  have pa := Cylinder.position_eq baseRadius topRadius height sectorCount stackCount
    i j (by omega) (by omega)
  have pb := Cylinder.position_eq baseRadius topRadius height sectorCount stackCount
    (i + 1) j (by omega) (by omega)
  have pc := Cylinder.position_eq baseRadius topRadius height sectorCount stackCount
    i (j + 1) (by omega) (by omega)
  have pd := Cylinder.position_eq baseRadius topRadius height sectorCount stackCount
    (i + 1) (j + 1) (by omega) (by omega)
  have na := Cylinder.normal_eq baseRadius topRadius height sectorCount stackCount
    i j (by omega) (by omega) hr0
  have nb := Cylinder.normal_eq baseRadius topRadius height sectorCount stackCount
    (i + 1) j (by omega) (by omega) hr1
  have nc := Cylinder.normal_eq baseRadius topRadius height sectorCount stackCount
    i (j + 1) (by omega) (by omega) hr0
  have nd := Cylinder.normal_eq baseRadius topRadius height sectorCount stackCount
    (i + 1) (j + 1) (by omega) (by omega) hr1
  have hst : (0 : ℝ) < (stackCount : ℝ) := by exact_mod_cast hstack'
  have hhs : 0 < height / (stackCount : ℝ) := div_pos hh hst
  have hz : (-height / 2 + ((i + 1 : Nat) : ℝ) * (height / (stackCount : ℝ)))
      - (-height / 2 + (i : ℝ) * (height / (stackCount : ℝ))) = height / (stackCount : ℝ) := by
    push_cast
    ring
  have hsd := Cylinder.sin_step j (2 * Real.pi / (sectorCount : ℝ))
  have hsdpos := Cylinder.sin_sectorStep_pos sectorCount hsector'
  have hC' := Real.cos_sq_add_sin_sq (((j + 1 : Nat) : ℝ) * (2 * Real.pi / (sectorCount : ℝ)))
  generalize hr0def :
    baseRadius + (i : ℝ) / (stackCount : ℝ) * (topRadius - baseRadius) = r0 at *
  generalize hr1def :
    baseRadius + ((i + 1 : Nat) : ℝ) / (stackCount : ℝ) * (topRadius - baseRadius) = r1 at *
  generalize hCdef : Real.cos ((j : ℝ) * (2 * Real.pi / (sectorCount : ℝ))) = C at *
  generalize hSdef : Real.sin ((j : ℝ) * (2 * Real.pi / (sectorCount : ℝ))) = S at *
  generalize hCdef' :
    Real.cos (((j + 1 : Nat) : ℝ) * (2 * Real.pi / (sectorCount : ℝ))) = C' at *
  generalize hSdef' :
    Real.sin (((j + 1 : Nat) : ℝ) * (2 * Real.pi / (sectorCount : ℝ))) = S' at *
  rcases h with rfl | rfl
  · have hr0' : 0 < r0 := by
      refine lt_of_le_of_ne hr0 (fun h0 => hN ?_)
      simp only [Cylinder.triangleNormal, pa, pb, pc, ← h0]
      simp [Vec3.cross, Vec3.sub]
    have hNdot : ∀ X Y : ℝ, Vec3.dot ((Cylinder.Cylinder Real.pi Real.cos Real.sin Real.sqrt
        baseRadius topRadius height (sectorCount : Int) (stackCount : Int)).triangleNormal
          (((i * (sectorCount + 1) + j : Nat) : Int),
            (((i + 1) * (sectorCount + 1) + j : Nat) : Int),
            ((i * (sectorCount + 1) + (j + 1) : Nat) : Int))) (X, Y, 0)
        = -(height / (stackCount : ℝ) * r0 * ((S' - S) * X - (C' - C) * Y)) := by
      intro X Y
      simp only [Cylinder.triangleNormal, pa, pb, pc]
      exact Cylinder.normal_dot_first _ _ _ _ _ _ _ _ _ _ _ hz
    refine ⟨?_, ?_⟩
    · simp only [List.forall_mem_cons, List.not_mem_nil, false_implies, implies_true, and_true]
      refine ⟨?_, ?_, ?_⟩
      · exact Cylinder.vertex_side _ _ _ _ _ _ hNdot hhs hr0' hsdpos r0 C S hr0
          (by rw [← hsd]; ring) _ _ (by simp only [Cylinder.radial, pa]) na
      · exact Cylinder.vertex_side _ _ _ _ _ _ hNdot hhs hr0' hsdpos r1 C S hr1
          (by rw [← hsd]; ring) _ _ (by simp only [Cylinder.radial, pb]) nb
      · exact Cylinder.vertex_side _ _ _ _ _ _ hNdot hhs hr0' hsdpos r0 C' S' hr0
          (by rw [← hsd]; ring) _ _ (by simp only [Cylinder.radial, pc]) nc
    · simp only [Cylinder.radial, pc]
      exact Cylinder.radial_ne_zero r0 C' S' hr0'.ne' hC'
  · have hr1' : 0 < r1 := by
      refine lt_of_le_of_ne hr1 (fun h0 => hN ?_)
      simp only [Cylinder.triangleNormal, pb, pc, pd, ← h0, Vec3.cross, Vec3.sub,
        Prod.mk.injEq]
      refine ⟨?_, ?_, ?_⟩ <;> ring
    have hNdot : ∀ X Y : ℝ, Vec3.dot ((Cylinder.Cylinder Real.pi Real.cos Real.sin Real.sqrt
        baseRadius topRadius height (sectorCount : Int) (stackCount : Int)).triangleNormal
          (((i * (sectorCount + 1) + (j + 1) : Nat) : Int),
            (((i + 1) * (sectorCount + 1) + j : Nat) : Int),
            (((i + 1) * (sectorCount + 1) + (j + 1) : Nat) : Int))) (X, Y, 0)
        = -(height / (stackCount : ℝ) * r1 * ((S' - S) * X - (C' - C) * Y)) := by
      intro X Y
      simp only [Cylinder.triangleNormal, pb, pc, pd]
      exact Cylinder.normal_dot_second _ _ _ _ _ _ _ _ _ _ _ hz
    refine ⟨?_, ?_⟩
    · simp only [List.forall_mem_cons, List.not_mem_nil, false_implies, implies_true, and_true]
      refine ⟨?_, ?_, ?_⟩
      · exact Cylinder.vertex_side _ _ _ _ _ _ hNdot hhs hr1' hsdpos r0 C' S' hr0
          (by rw [← hsd]; ring) _ _ (by simp only [Cylinder.radial, pc]) nc
      · exact Cylinder.vertex_side _ _ _ _ _ _ hNdot hhs hr1' hsdpos r1 C S hr1
          (by rw [← hsd]; ring) _ _ (by simp only [Cylinder.radial, pb]) nb
      · exact Cylinder.vertex_side _ _ _ _ _ _ hNdot hhs hr1' hsdpos r1 C' S' hr1
          (by rw [← hsd]; ring) _ _ (by simp only [Cylinder.radial, pd]) nd
    · simp only [Cylinder.radial, pd]
      exact Cylinder.radial_ne_zero r1 C' S' hr1'.ne' hC'

theorem Cylinder.planter_mem_triangles :
    ((0 : Int), (17 : Int), (1 : Int)) ∈ triangles (Cylinder.Cylinder Real.pi Real.cos
      Real.sin Real.sqrt (1 : ℝ) 1 1 16 1).indices := by
  simp only [Cylinder.Cylinder, Cylinder.buildIndices_eq, Cylinder.triangles_specIndices]
  decide

theorem Cylinder.planter_positions :
    (Cylinder.Cylinder Real.pi Real.cos Real.sin Real.sqrt (1 : ℝ) 1 1 16 1).position 0
      = (1, 0, -(1 / 2)) ∧
    (Cylinder.Cylinder Real.pi Real.cos Real.sin Real.sqrt (1 : ℝ) 1 1 16 1).position 17
      = (1, 0, 1 / 2) ∧
    (Cylinder.Cylinder Real.pi Real.cos Real.sin Real.sqrt (1 : ℝ) 1 1 16 1).position 1
      = (Real.cos (2 * Real.pi / 16), Real.sin (2 * Real.pi / 16), -(1 / 2)) := by
  have pa := Cylinder.position_eq 1 1 1 16 1 0 0 (by decide) (by decide)
  have pb := Cylinder.position_eq 1 1 1 16 1 1 0 (by decide) (by decide)
  have pc := Cylinder.position_eq 1 1 1 16 1 0 1 (by decide) (by decide)
  norm_num at pa pb pc
  exact ⟨pa, pb, pc⟩

theorem Cylinder.planter_normal :
    (Cylinder.Cylinder Real.pi Real.cos Real.sin Real.sqrt (1 : ℝ) 1 1 16 1).triangleNormal
        (0, 17, 1)
      = (-Real.sin (2 * Real.pi / 16), Real.cos (2 * Real.pi / 16) - 1, 0) := by
  obtain ⟨pa, pb, pc⟩ := Cylinder.planter_positions
  simp only [Cylinder.triangleNormal, pa, pb, pc, Vec3.cross, Vec3.sub, Prod.mk.injEq]
  refine ⟨?_, ?_, ?_⟩ <;> ring

theorem Cylinder.planter_sin_pos : 0 < Real.sin (2 * Real.pi / 16) := by
  have := Cylinder.sin_sectorStep_pos 16 (by decide)
  simpa using this

/-- C6, refuted as stated: in `Cylinder(1, 1, 1, 16, 1)`, the mesh main.cpp builds, the first
emitted triangle `(0, 17, 1)` has non-zero area and its geometric normal has a negative dot
product with the radial direction of each of its three vertices, so it is not
counter-clockwise seen from outside. -/
theorem Cylinder.winding_not_counterclockwise :
    Cylinder.ValidParams (1 : ℝ) 1 1 16 1 ∧
    ((0 : Int), (17 : Int), (1 : Int)) ∈ triangles (Cylinder.Cylinder Real.pi Real.cos
      Real.sin Real.sqrt (1 : ℝ) 1 1 16 1).indices ∧
    (Cylinder.Cylinder Real.pi Real.cos Real.sin Real.sqrt (1 : ℝ) 1 1 16 1).triangleNormal
      (0, 17, 1) ≠ (0, 0, 0) ∧
    Vec3.dot ((Cylinder.Cylinder Real.pi Real.cos Real.sin Real.sqrt (1 : ℝ) 1 1
        16 1).triangleNormal (0, 17, 1))
      ((Cylinder.Cylinder Real.pi Real.cos Real.sin Real.sqrt (1 : ℝ) 1 1 16 1).radial 0) < 0 ∧
    Vec3.dot ((Cylinder.Cylinder Real.pi Real.cos Real.sin Real.sqrt (1 : ℝ) 1 1
        16 1).triangleNormal (0, 17, 1))
      ((Cylinder.Cylinder Real.pi Real.cos Real.sin Real.sqrt (1 : ℝ) 1 1 16 1).radial 17) < 0 ∧
    Vec3.dot ((Cylinder.Cylinder Real.pi Real.cos Real.sin Real.sqrt (1 : ℝ) 1 1
        16 1).triangleNormal (0, 17, 1))
      ((Cylinder.Cylinder Real.pi Real.cos Real.sin Real.sqrt (1 : ℝ) 1 1 16 1).radial 1) < 0 := by
  obtain ⟨pa, pb, pc⟩ := Cylinder.planter_positions
  have hs := Cylinder.planter_sin_pos
  have hsq := Real.cos_sq_add_sin_sq (2 * Real.pi / 16)
  refine ⟨⟨by norm_num, by norm_num, by norm_num, by norm_num, by decide, by decide⟩,
    Cylinder.planter_mem_triangles, ?_, ?_, ?_, ?_⟩
  · rw [Cylinder.planter_normal]
    intro h
    simp only [Prod.mk.injEq, neg_eq_zero, and_true] at h
    exact hs.ne' h.1
  · rw [Cylinder.planter_normal]
    simp only [Cylinder.radial, pa, Vec3.dot]
    linarith
  · rw [Cylinder.planter_normal]
    simp only [Cylinder.radial, pb, Vec3.dot]
    linarith
  · rw [Cylinder.planter_normal]
    simp only [Cylinder.radial, pc, Vec3.dot]
    nlinarith

/-- The first triangle `(0, 17, 1)` of `Cylinder(1, 1, 1, 16, 1)` faces inwards. -/
theorem Cylinder.winding_clockwise_witness :
    (∀ v ∈ [(0 : Int), 17, 1],
      Vec3.dot ((Cylinder.Cylinder Real.pi Real.cos Real.sin Real.sqrt (1 : ℝ) 1 1
          16 1).triangleNormal (0, 17, 1))
        ((Cylinder.Cylinder Real.pi Real.cos Real.sin Real.sqrt (1 : ℝ) 1 1 16 1).radial v) ≤ 0 ∧
      Vec3.dot ((Cylinder.Cylinder Real.pi Real.cos Real.sin Real.sqrt (1 : ℝ) 1 1
          16 1).triangleNormal (0, 17, 1))
        ((Cylinder.Cylinder Real.pi Real.cos Real.sin Real.sqrt (1 : ℝ) 1 1 16 1).normal v) ≤ 0 ∧
      ((Cylinder.Cylinder Real.pi Real.cos Real.sin Real.sqrt (1 : ℝ) 1 1 16 1).radial v
          ≠ (0, 0, 0) →
        Vec3.dot ((Cylinder.Cylinder Real.pi Real.cos Real.sin Real.sqrt (1 : ℝ) 1 1
            16 1).triangleNormal (0, 17, 1))
          ((Cylinder.Cylinder Real.pi Real.cos Real.sin Real.sqrt (1 : ℝ) 1 1 16 1).radial v)
            < 0 ∧
        Vec3.dot ((Cylinder.Cylinder Real.pi Real.cos Real.sin Real.sqrt (1 : ℝ) 1 1
            16 1).triangleNormal (0, 17, 1))
          ((Cylinder.Cylinder Real.pi Real.cos Real.sin Real.sqrt (1 : ℝ) 1 1 16 1).normal v)
            < 0)) ∧
    (Cylinder.Cylinder Real.pi Real.cos Real.sin Real.sqrt (1 : ℝ) 1 1 16 1).radial 1
      ≠ (0, 0, 0) :=
  Cylinder.winding_clockwise 1 1 1 16 1
    ⟨by norm_num, by norm_num, by norm_num, by norm_num, by decide, by decide⟩
    (0, 17, 1) Cylinder.planter_mem_triangles
    (by
      rw [Cylinder.planter_normal]
      intro h
      simp only [Prod.mk.injEq, neg_eq_zero, and_true] at h
      exact Cylinder.planter_sin_pos.ne' h.1)

/-- C8: `applyTexModeToShader` sets `(uUseTexture, uBlendWithColor, uComputeMode)` to
`(false, false, 1)` for `TEX_OFF`, `(true, false, 1)` for `TEX_SIMPLE`, `(true, true, 0)` for
`TEX_BLEND_VERTEX` and `(true, true, 1)` for `TEX_BLEND_FRAGMENT`: the resolve table, whatever
the rest of the state, so the triple depends on nothing but the current `gTexMode`. -/
theorem applyTexModeToShader_table (s : State) :
    (applyTexModeToShader { s with gTexMode := .TEX_OFF }).shadingTriple = (false, false, 1) ∧
    (applyTexModeToShader { s with gTexMode := .TEX_SIMPLE }).shadingTriple = (true, false, 1) ∧
    (applyTexModeToShader { s with gTexMode := .TEX_BLEND_VERTEX }).shadingTriple
      = (true, true, 0) ∧
    (applyTexModeToShader { s with gTexMode := .TEX_BLEND_FRAGMENT }).shadingTriple
      = (true, true, 1) ∧
    (applyTexModeToShader s).shadingTriple = resolve s.gTexMode := by
  refine ⟨by simp [applyTexModeToShader, State.shadingTriple, State.setBool, State.setInt],
    by simp [applyTexModeToShader, State.shadingTriple, State.setBool, State.setInt],
    by simp [applyTexModeToShader, State.shadingTriple, State.setBool, State.setInt],
    by simp [applyTexModeToShader, State.shadingTriple, State.setBool, State.setInt], ?_⟩
  cases h : s.gTexMode <;>
    simp [applyTexModeToShader, State.shadingTriple, State.setBool, State.setInt, resolve, h]

theorem applyTexModeToShader_triple (s : State) :
    (applyTexModeToShader s).shadingTriple = resolve s.gTexMode := by
  cases h : s.gTexMode <;>
    simp [applyTexModeToShader, State.shadingTriple, State.setBool, State.setInt, resolve, h]

theorem applyTexModeToShader_frame (s : State) :
    (applyTexModeToShader s).gTexMode = s.gTexMode ∧
      (applyTexModeToShader s).drawCalls = s.drawCalls := by
  unfold applyTexModeToShader
  split_ifs <;> simp [State.setBool, State.setInt]

theorem bindOrDisable_triple (texID : Nat) (s : State) :
    (bindOrDisable texID (applyTexModeToShader s)).shadingTriple
      = (decide (texID ≠ 0 ∧ s.gTexMode ≠ .TEX_OFF), (resolve s.gTexMode).2.1,
          (resolve s.gTexMode).2.2) := by
  have ht := applyTexModeToShader_triple s
  have hf := (applyTexModeToShader_frame s).1
  have h1 : (applyTexModeToShader s).boolUniform "uUseTexture" = (resolve s.gTexMode).1 :=
    congrArg Prod.fst ht
  have h2 : (applyTexModeToShader s).boolUniform "uBlendWithColor"
      = (resolve s.gTexMode).2.1 := congrArg (fun p => p.2.1) ht
  have h3 : (applyTexModeToShader s).intUniform "uComputeMode"
      = (resolve s.gTexMode).2.2 := congrArg (fun p => p.2.2) ht
  unfold bindOrDisable
  rw [hf]
  by_cases hc : texID ≠ 0 ∧ s.gTexMode ≠ .TEX_OFF
  · rw [if_pos hc]
    have hu : (resolve s.gTexMode).1 = true := by
      cases hm : s.gTexMode <;> simp_all [resolve]
    simp [bindTex0, glBindTexture, glActiveTexture, State.setInt, State.shadingTriple,
      h1, h2, h3, hu, hc]
  · rw [if_neg hc]
    simp [State.setBool, State.shadingTriple, h2, h3, hc]

theorem bindOrDisable_drawCalls (texID : Nat) (s : State) :
    (bindOrDisable texID s).drawCalls = s.drawCalls := by
  unfold bindOrDisable
  split_ifs <;>
    simp [bindTex0, glBindTexture, glActiveTexture, State.setInt, State.setBool]

theorem submit_triples (p : Primitive) (s : State) :
    (s.submit p).drawCalls.map DrawCall.shadingTriple
      = s.drawCalls.map DrawCall.shadingTriple ++ [s.shadingTriple] := by
  simp [State.submit, DrawCall.shadingTriple, State.shadingTriple]

theorem cube_draw_triples (vao texID : Nat) (s : State) :
    (glDrawArrays 0 36 (glBindVertexArray vao
        (bindOrDisable texID (applyTexModeToShader s)))).drawCalls.map DrawCall.shadingTriple
      = s.drawCalls.map DrawCall.shadingTriple ++
        [(decide (texID ≠ 0 ∧ s.gTexMode ≠ .TEX_OFF), (resolve s.gTexMode).2.1,
          (resolve s.gTexMode).2.2)] := by
  rw [glDrawArrays, submit_triples]
  have h1 : (glBindVertexArray vao (bindOrDisable texID (applyTexModeToShader s))).drawCalls
      = s.drawCalls := by
    show (bindOrDisable texID (applyTexModeToShader s)).drawCalls = s.drawCalls
    rw [bindOrDisable_drawCalls, (applyTexModeToShader_frame s).2]
  have h2 : (glBindVertexArray vao (bindOrDisable texID (applyTexModeToShader s))).shadingTriple
      = (bindOrDisable texID (applyTexModeToShader s)).shadingTriple := rfl
  rw [h1, h2, bindOrDisable_triple]

theorem MeshHandle.draw_triples (m : MeshHandle) (s : State) :
    (m.draw s).drawCalls.map DrawCall.shadingTriple
      = s.drawCalls.map DrawCall.shadingTriple ++ [s.shadingTriple] := by
  show ((glBindVertexArray m.vao s).submit _).drawCalls.map DrawCall.shadingTriple = _
  rw [submit_triples]
  rfl

theorem MeshHandle.draw_uniforms (m : MeshHandle) (s : State) :
    (m.draw s).boolUniform = s.boolUniform ∧ (m.draw s).intUniform = s.intUniform :=
  ⟨rfl, rfl⟩

theorem cylinder_draw_triples (cylinder : MeshHandle) (texID : Nat) (s : State) :
    (cylinder.draw (bindOrDisable texID (applyTexModeToShader s))).drawCalls.map
        DrawCall.shadingTriple
      = s.drawCalls.map DrawCall.shadingTriple ++
        [(decide (texID ≠ 0 ∧ s.gTexMode ≠ .TEX_OFF), (resolve s.gTexMode).2.1,
          (resolve s.gTexMode).2.2)] := by
  rw [MeshHandle.draw_triples, bindOrDisable_drawCalls, (applyTexModeToShader_frame s).2,
    bindOrDisable_triple]

/-- C9: for every shading mode and texture handle, the draw call issued by `drawCube`, by
`drawCup`, by the part helpers `drawPart` and `drawChairPart` of the table set, and the body
draw of `drawMug` is issued with `uUseTexture = (texID != 0 and mode != TEX_OFF)` and with
`uBlendWithColor`, `uComputeMode` as the mode gives them; the second draw of `drawMug`, the handle,
is always issued with `uUseTexture = false`.  In particular with `texID = 0` each of these
helpers draws with, and ends with, `uUseTexture = false`. -/
theorem draw_helpers_uniforms (vao texID : Nat) (cylinder : MeshHandle) (s : State) :
    ((drawCube vao texID s).drawCalls.map DrawCall.shadingTriple
      = s.drawCalls.map DrawCall.shadingTriple ++
        [(decide (texID ≠ 0 ∧ s.gTexMode ≠ .TEX_OFF), (resolve s.gTexMode).2.1,
          (resolve s.gTexMode).2.2)]) ∧
    ((drawMug cylinder texID s).drawCalls.map DrawCall.shadingTriple
      = s.drawCalls.map DrawCall.shadingTriple ++
        [(decide (texID ≠ 0 ∧ s.gTexMode ≠ .TEX_OFF), (resolve s.gTexMode).2.1,
          (resolve s.gTexMode).2.2),
         (false, (resolve s.gTexMode).2.1, (resolve s.gTexMode).2.2)]) ∧
    ((drawCup cylinder texID s).drawCalls.map DrawCall.shadingTriple
      = s.drawCalls.map DrawCall.shadingTriple ++
        [(decide (texID ≠ 0 ∧ s.gTexMode ≠ .TEX_OFF), (resolve s.gTexMode).2.1,
          (resolve s.gTexMode).2.2)]) ∧
    ((drawStylizedTableSet.drawPart vao texID s).drawCalls.map DrawCall.shadingTriple
      = s.drawCalls.map DrawCall.shadingTriple ++
        [(decide (texID ≠ 0 ∧ s.gTexMode ≠ .TEX_OFF), (resolve s.gTexMode).2.1,
          (resolve s.gTexMode).2.2)]) ∧
    ((drawStylizedTableSet.drawChairPart vao texID s).drawCalls.map DrawCall.shadingTriple
      = s.drawCalls.map DrawCall.shadingTriple ++
        [(decide (texID ≠ 0 ∧ s.gTexMode ≠ .TEX_OFF), (resolve s.gTexMode).2.1,
          (resolve s.gTexMode).2.2)]) ∧
    ((drawCube vao 0 s).boolUniform "uUseTexture" = false ∧
      (drawMug cylinder 0 s).boolUniform "uUseTexture" = false ∧
      (drawCup cylinder 0 s).boolUniform "uUseTexture" = false ∧
      (drawStylizedTableSet.drawPart vao 0 s).boolUniform "uUseTexture" = false ∧
      (drawStylizedTableSet.drawChairPart vao 0 s).boolUniform "uUseTexture" = false) := by
  refine ⟨cube_draw_triples vao texID s, ?_, cylinder_draw_triples cylinder texID s,
    cube_draw_triples vao texID s, cube_draw_triples vao texID s, ?_⟩
  · show (cylinder.draw ((cylinder.draw (bindOrDisable texID
        (applyTexModeToShader s))).setBool "uUseTexture" false)).drawCalls.map
          DrawCall.shadingTriple = _
    rw [MeshHandle.draw_triples]
    have hd : ((cylinder.draw (bindOrDisable texID
        (applyTexModeToShader s))).setBool "uUseTexture" false).drawCalls
        = (cylinder.draw (bindOrDisable texID (applyTexModeToShader s))).drawCalls := rfl
    have ht : ((cylinder.draw (bindOrDisable texID
        (applyTexModeToShader s))).setBool "uUseTexture" false).shadingTriple
        = (false, (bindOrDisable texID (applyTexModeToShader s)).shadingTriple.2.1,
            (bindOrDisable texID (applyTexModeToShader s)).shadingTriple.2.2) := by
      simp [State.setBool, State.shadingTriple, (MeshHandle.draw_uniforms _ _).1,
        (MeshHandle.draw_uniforms _ _).2]
    rw [hd, ht, cylinder_draw_triples, bindOrDisable_triple]
    simp
  · have h : (bindOrDisable 0 (applyTexModeToShader s)).boolUniform "uUseTexture" = false := by
      have h := congrArg Prod.fst (bindOrDisable_triple 0 s)
      simpa [State.shadingTriple] using h
    exact ⟨h, rfl, h, h, h⟩

theorem processInput.onPress_gTexMode (glfwGetKey : Nat → Bool) (key : Nat)
    (body : State → State) (s : State) :
    (processInput.onPress glfwGetKey key body s).gTexMode
      = if glfwGetKey key = true ∧ s.keys key = false then (body s).gTexMode
        else s.gTexMode := by
  unfold processInput.onPress
  split_ifs <;> simp [State.setKey]

theorem processInput.onPress_keys (glfwGetKey : Nat → Bool) (key : Nat)
    (body : State → State) (s : State) (k : Nat) :
    (processInput.onPress glfwGetKey key body s).keys k
      = if glfwGetKey key = true ∧ s.keys key = false then (body s).keys k
        else if k = key then glfwGetKey key else s.keys k := by
  unfold processInput.onPress
  split_ifs with h1 h2 h3 h4 <;> simp_all [State.setKey]

theorem processInput.applyWrap_frame (s : State) (t : Nat) :
    (processInput.applyWrap s t).gTexMode = s.gTexMode ∧
      (processInput.applyWrap s t).keys = s.keys :=
  ⟨rfl, rfl⟩

theorem processInput.applyFilter_frame (s : State) (t : Nat) :
    (processInput.applyFilter s t).gTexMode = s.gTexMode ∧
      (processInput.applyFilter s t).keys = s.keys :=
  ⟨rfl, rfl⟩

theorem processInput_digit_keys (glfwGetKey : Nat → Bool) (s : State) :
    (processInput glfwGetKey s).keys GLFW_KEY_0 = glfwGetKey GLFW_KEY_0 ∧
    (processInput glfwGetKey s).keys GLFW_KEY_1 = glfwGetKey GLFW_KEY_1 ∧
    (processInput glfwGetKey s).keys GLFW_KEY_2 = glfwGetKey GLFW_KEY_2 ∧
    (processInput glfwGetKey s).keys GLFW_KEY_3 = glfwGetKey GLFW_KEY_3 := by
  unfold processInput
  have hk : (if glfwGetKey GLFW_KEY_ESCAPE = true then { s with windowShouldClose := true }
      else s).keys = s.keys := by split_ifs <;> rfl
  generalize (if glfwGetKey GLFW_KEY_ESCAPE = true then { s with windowShouldClose := true }
      else s) = s0 at hk ⊢
  simp [processInput.toggle, processInput.onPress_keys,
    processInput.onPress_gTexMode, State.setKey,
    (processInput.applyWrap_frame _ _).1, (processInput.applyWrap_frame _ _).2,
    (processInput.applyFilter_frame _ _).1, (processInput.applyFilter_frame _ _).2,
    GLFW_KEY_0, GLFW_KEY_1, GLFW_KEY_2, GLFW_KEY_3, GLFW_KEY_4, GLFW_KEY_C, GLFW_KEY_F,
    GLFW_KEY_M, GLFW_KEY_P, GLFW_KEY_R]
  exact ⟨fun h _ => h, fun h _ => h, fun h _ => h, fun h _ => h⟩

theorem processInput_gTexMode (glfwGetKey : Nat → Bool) (s : State) :
    (processInput glfwGetKey s).gTexMode
      = if glfwGetKey GLFW_KEY_3 = true ∧ s.keys GLFW_KEY_3 = false then .TEX_BLEND_FRAGMENT
        else if glfwGetKey GLFW_KEY_2 = true ∧ s.keys GLFW_KEY_2 = false then .TEX_BLEND_VERTEX
        else if glfwGetKey GLFW_KEY_1 = true ∧ s.keys GLFW_KEY_1 = false then .TEX_SIMPLE
        else if glfwGetKey GLFW_KEY_0 = true ∧ s.keys GLFW_KEY_0 = false then .TEX_OFF
        else s.gTexMode := by
  unfold processInput
  have hk : (if glfwGetKey GLFW_KEY_ESCAPE = true then { s with windowShouldClose := true }
      else s).keys = s.keys := by split_ifs <;> rfl
  have hm : (if glfwGetKey GLFW_KEY_ESCAPE = true then { s with windowShouldClose := true }
      else s).gTexMode = s.gTexMode := by split_ifs <;> rfl
  generalize (if glfwGetKey GLFW_KEY_ESCAPE = true then { s with windowShouldClose := true }
      else s) = s0 at hk hm ⊢
  rw [← hk, ← hm]
  simp [processInput.toggle, processInput.onPress_keys,
    processInput.onPress_gTexMode, State.setKey,
    (processInput.applyWrap_frame _ _).1, (processInput.applyWrap_frame _ _).2,
    (processInput.applyFilter_frame _ _).1, (processInput.applyFilter_frame _ _).2,
    GLFW_KEY_0, GLFW_KEY_1, GLFW_KEY_2, GLFW_KEY_3, GLFW_KEY_4, GLFW_KEY_C, GLFW_KEY_F,
    GLFW_KEY_M, GLFW_KEY_P, GLFW_KEY_R]

/-- C10: a mode key always takes effect.  Whatever the state and the mode before, when in two
consecutive `processInput` steps the digit key `k` (0, 1, 2 or 3) is pressed in the second
step and was not pressed in the first, and no other of the four digit keys is newly pressed
in the same way, `gTexMode` is afterwards the mode mapped to `k` (0 to `TEX_OFF`, 1 to
`TEX_SIMPLE`, 2 to `TEX_BLEND_VERTEX`, 3 to `TEX_BLEND_FRAGMENT`), and the next
`applyTexModeToShader` writes the triple of that mode. -/
theorem processInput_mode_key (s : State) (previous current : Nat → Bool) (k : Fin 4)
    (hcurrent : current (digitKey k) = true) (hprevious : previous (digitKey k) = false)
    (hothers : ∀ k' : Fin 4, k' ≠ k →
      ¬ (current (digitKey k') = true ∧ previous (digitKey k') = false)) :
    (processInput current (processInput previous s)).gTexMode = modeOfDigit k ∧
    (applyTexModeToShader (processInput current (processInput previous s))).shadingTriple
      = resolve (modeOfDigit k) := by
  have hmode : (processInput current (processInput previous s)).gTexMode = modeOfDigit k := by
    obtain ⟨h0, h1, h2, h3⟩ := processInput_digit_keys previous s
    rw [processInput_gTexMode, h0, h1, h2, h3]
    have o0 := hothers 0
    have o1 := hothers 1
    have o2 := hothers 2
    have o3 := hothers 3
    fin_cases k <;> simp_all [digitKey, modeOfDigit] <;> split_ifs <;> simp_all
  exact ⟨hmode, by rw [applyTexModeToShader_triple, hmode]⟩

/-- From the initial state, a step with no key pressed followed by a step with key 2 pressed
leaves `TEX_BLEND_VERTEX`, resolved to `(true, true, 0)`. -/
theorem processInput_mode_key_witness :
    (processInput (fun key => decide (key = GLFW_KEY_2))
        (processInput (fun _ => false) State.initial)).gTexMode = .TEX_BLEND_VERTEX ∧
    (applyTexModeToShader (processInput (fun key => decide (key = GLFW_KEY_2))
        (processInput (fun _ => false) State.initial))).shadingTriple = (true, true, 0) :=
  processInput_mode_key State.initial (fun _ => false) (fun key => decide (key = GLFW_KEY_2))
    2 (by decide) (by decide) (by decide)

/-! ## The shading mode at startup -/

/-- C11: the shading mode has exactly the four variants `TEX_OFF = 0`, `TEX_SIMPLE = 1`,
`TEX_BLEND_VERTEX = 2`, `TEX_BLEND_FRAGMENT = 3`, pairwise distinct; at startup it is
`TEX_SIMPLE`, it still is after a first `processInput` without key event, and the first frame
resolves to `(uUseTexture, uBlendWithColor, uComputeMode) = (true, false, 1)`, the fragment
stage. -/
theorem texFeatureMode_variants_and_initial :
    (∀ m : TexFeatureMode, m = .TEX_OFF ∨ m = .TEX_SIMPLE ∨ m = .TEX_BLEND_VERTEX ∨
      m = .TEX_BLEND_FRAGMENT) ∧
    [TexFeatureMode.TEX_OFF, TexFeatureMode.TEX_SIMPLE, TexFeatureMode.TEX_BLEND_VERTEX,
      TexFeatureMode.TEX_BLEND_FRAGMENT].Nodup ∧
    (TexFeatureMode.TEX_OFF.toInt = 0 ∧ TexFeatureMode.TEX_SIMPLE.toInt = 1 ∧
      TexFeatureMode.TEX_BLEND_VERTEX.toInt = 2 ∧ TexFeatureMode.TEX_BLEND_FRAGMENT.toInt = 3) ∧
    State.initial.gTexMode = .TEX_SIMPLE ∧
    (processInput (fun _ => false) State.initial).gTexMode = .TEX_SIMPLE ∧
    (applyTexModeToShader State.initial).shadingTriple = (true, false, 1) ∧
    (applyTexModeToShader (processInput (fun _ => false) State.initial)).shadingTriple
      = (true, false, 1) := by
  have hstep : (processInput (fun _ => false) State.initial).gTexMode = .TEX_SIMPLE := by
    rw [processInput_gTexMode]
    simp [State.initial]
  refine ⟨fun m => by cases m <;> simp, by decide, ⟨rfl, rfl, rfl, rfl⟩, rfl, hstep, ?_, ?_⟩
  · rw [applyTexModeToShader_triple]
    rfl
  · rw [applyTexModeToShader_triple, hstep]
    rfl

/-! ## Geometry of the generated vertices -/

theorem Cylinder.vertex_count {α : Type} [Field α] [DecidableEq α]
    (pi : α) (cosf sinf sqrt : α → α)
    (baseRadius topRadius height : α) (sectorCount stackCount : Nat) :
    (Cylinder.Cylinder pi cosf sinf sqrt baseRadius topRadius height
        (sectorCount : Int) (stackCount : Int)).vertices.length / 8
      = (stackCount + 1) * (sectorCount + 1) := by
  simp only [Cylinder.Cylinder, Cylinder.buildVertices_length]
  have e1 : ((sectorCount : Int) + 1).toNat = sectorCount + 1 := by omega
  have e2 : ((stackCount : Int) + 1).toNat = stackCount + 1 := by omega
  rw [e1, e2, ← Nat.mul_assoc, Nat.mul_div_cancel _ (by decide : 0 < 8)]

theorem Cylinder.ordinal_decompose (sectorCount stackCount k : Nat)
    (hk : k < (stackCount + 1) * (sectorCount + 1)) :
    ∃ i j : Nat, i ≤ stackCount ∧ j ≤ sectorCount ∧ k = i * (sectorCount + 1) + j := by
  refine ⟨k / (sectorCount + 1), k % (sectorCount + 1), ?_, ?_, ?_⟩
  · have : k / (sectorCount + 1) < stackCount + 1 :=
      (Nat.div_lt_iff_lt_mul (Nat.succ_pos _)).mpr hk
    omega
  · have := Nat.mod_lt k (by omega : 0 < sectorCount + 1)
    omega
  · have := Nat.div_add_mod k (sectorCount + 1)
    rw [Nat.mul_comm] at this
    exact this.symm

/-- C12: for `r > 0`, `height > 0`, `sectorCount >= 3` and `stackCount >= 1`, every vertex of
`Cylinder(r, r, height, sectorCount, stackCount)` satisfies `x^2 + y^2 = r^2`: its distance
from the z axis is `r` on every stack (over the reals). -/
theorem Cylinder.equal_radii_distance (r height : ℝ) (sectorCount stackCount : Int)
    (_hr : 0 < r) (_hheight : 0 < height) (hsector : 3 ≤ sectorCount) (hstack : 1 ≤ stackCount) :
    ∀ k : Nat, k < (Cylinder.Cylinder Real.pi Real.cos Real.sin Real.sqrt r r height
        sectorCount stackCount).vertices.length / 8 →
      ((Cylinder.Cylinder Real.pi Real.cos Real.sin Real.sqrt r r height
          sectorCount stackCount).position (k : Int)).1 ^ 2
        + ((Cylinder.Cylinder Real.pi Real.cos Real.sin Real.sqrt r r height
          sectorCount stackCount).position (k : Int)).2.1 ^ 2 = r ^ 2 := by
  lift sectorCount to ℕ using by omega
  lift stackCount to ℕ using by omega
  intro k hk
  rw [Cylinder.vertex_count] at hk
  obtain ⟨i, j, hi, hj, rfl⟩ := Cylinder.ordinal_decompose sectorCount stackCount k hk
  rw [Cylinder.position_eq r r height sectorCount stackCount i j hi hj]
  have h := Real.cos_sq_add_sin_sq ((j : ℝ) * (2 * Real.pi / (sectorCount : ℝ)))
  simp only [sub_self, mul_zero, add_zero]
  linear_combination (r ^ 2) * h

/-- The vertex with ordinal 21 of `Cylinder(1, 1, 1, 16, 1)` lies at distance 1 from the
axis. -/
theorem Cylinder.equal_radii_distance_witness :
    ((Cylinder.Cylinder Real.pi Real.cos Real.sin Real.sqrt (1 : ℝ) 1 1
        16 1).position ((21 : Nat) : Int)).1 ^ 2
      + ((Cylinder.Cylinder Real.pi Real.cos Real.sin Real.sqrt (1 : ℝ) 1 1
        16 1).position ((21 : Nat) : Int)).2.1 ^ 2 = (1 : ℝ) ^ 2 :=
  Cylinder.equal_radii_distance 1 1 16 1 (by norm_num) (by norm_num) (by decide) (by decide) 21
    (by
      simp only [Cylinder.Cylinder, Cylinder.buildVertices_length]
      decide)

/-- C13: for `r > 0`, `height > 0`, `sectorCount >= 3` and `stackCount >= 1`, every vertex of
the top ring (stack `i = stackCount`, sectors `j` in `[0, sectorCount]`) of
`Cylinder(r, 0, height, sectorCount, stackCount)` is stored in the vertex array, at ordinal
`stackCount*(sectorCount+1)+j`, with `x = 0` and `y = 0` (and `z = height/2`): the top ring of
the cone collapses onto the axis (over the reals). -/
theorem Cylinder.cone_top_ring_on_axis (r height : ℝ) (sectorCount stackCount : Int)
    (_hr : 0 < r) (_hheight : 0 < height) (hsector : 3 ≤ sectorCount) (hstack : 1 ≤ stackCount)
    (j : Int) (hj0 : 0 ≤ j) (hj : j ≤ sectorCount) :
    (Cylinder.Cylinder Real.pi Real.cos Real.sin Real.sqrt r 0 height
        sectorCount stackCount).vertices[(8 * (stackCount * (sectorCount + 1) + j)).toNat]?
      = some 0 ∧
    (Cylinder.Cylinder Real.pi Real.cos Real.sin Real.sqrt r 0 height
        sectorCount stackCount).vertices[(8 * (stackCount * (sectorCount + 1) + j)).toNat + 1]?
      = some 0 ∧
    (Cylinder.Cylinder Real.pi Real.cos Real.sin Real.sqrt r 0 height
        sectorCount stackCount).vertices[(8 * (stackCount * (sectorCount + 1) + j)).toNat + 2]?
      = some (height / 2) := by
  lift sectorCount to ℕ using by omega
  lift stackCount to ℕ using by omega
  lift j to ℕ using hj0
  have hst : (stackCount : ℝ) ≠ 0 := by
    have : 1 ≤ stackCount := by exact_mod_cast hstack
    exact_mod_cast (by omega : stackCount ≠ 0)
  have hidx : (8 * ((stackCount : Int) * ((sectorCount : Int) + 1) + (j : Int))).toNat
      = 8 * (stackCount * (sectorCount + 1) + j) := by
    have : (8 * ((stackCount : Int) * ((sectorCount : Int) + 1) + (j : Int)))
        = ((8 * (stackCount * (sectorCount + 1) + j) : Nat) : Int) := by push_cast; ring
    rw [this, Int.toNat_ofNat]
  rw [hidx]
  have h0 := Cylinder.vertices_getElem? Real.pi Real.cos Real.sin Real.sqrt
    r 0 height sectorCount stackCount stackCount j 0 le_rfl (by exact_mod_cast hj) (by decide)
  have h1 := Cylinder.vertices_getElem? Real.pi Real.cos Real.sin Real.sqrt
    r 0 height sectorCount stackCount stackCount j 1 le_rfl (by exact_mod_cast hj) (by decide)
  have h2 := Cylinder.vertices_getElem? Real.pi Real.cos Real.sin Real.sqrt
    r 0 height sectorCount stackCount stackCount j 2 le_rfl (by exact_mod_cast hj) (by decide)
  rw [Nat.add_zero] at h0
  rw [h0, h1, h2]
  have hzero : r + (stackCount : ℝ) / (stackCount : ℝ) * (0 - r) = 0 := by
    rw [div_self hst]; ring
  have hz : -height / 2 + (stackCount : ℝ) * (height / (stackCount : ℝ)) = height / 2 := by
    field_simp; ring
  simp only [Cylinder.vertexRecord, Int.cast_natCast, hzero, hz, zero_mul]
  exact ⟨rfl, rfl, rfl⟩

/-- The top ring vertex at sector 5 of the cone `Cylinder(1, 0, 1, 16, 2)`, ordinal
`2*17+5 = 39`, is stored on the axis at `z = 1/2`. -/
theorem Cylinder.cone_top_ring_on_axis_witness :
    (Cylinder.Cylinder Real.pi Real.cos Real.sin Real.sqrt (1 : ℝ) 0 1
        16 2).vertices[(8 * ((2 : Int) * (16 + 1) + 5)).toNat]? = some 0 ∧
    (Cylinder.Cylinder Real.pi Real.cos Real.sin Real.sqrt (1 : ℝ) 0 1
        16 2).vertices[(8 * ((2 : Int) * (16 + 1) + 5)).toNat + 1]? = some 0 ∧
    (Cylinder.Cylinder Real.pi Real.cos Real.sin Real.sqrt (1 : ℝ) 0 1
        16 2).vertices[(8 * ((2 : Int) * (16 + 1) + 5)).toNat + 2]? = some (1 / 2) :=
  Cylinder.cone_top_ring_on_axis 1 1 16 2 (by norm_num) (by norm_num) (by decide) (by decide)
    5 (by decide) (by decide)

theorem Cylinder.ringRadius_cast (baseRadius topRadius : ℝ) (stackCount i : Nat) :
    Cylinder.ringRadius baseRadius topRadius (stackCount : Int) (i : Int)
      = baseRadius + (i : ℝ) / (stackCount : ℝ) * (topRadius - baseRadius) := by
  simp [Cylinder.ringRadius]

theorem checkedDiv_of_ne {α : Type} [Field α] [DecidableEq α] (a b : α) (h : b ≠ 0) :
    checkedDiv a b = some (a / b) := by
  simp [checkedDiv, h]

theorem checkedDiv_guarded {α : Type} [Field α] [DecidableEq α] (a b : α) :
    (if b = 0 then some 0 else checkedDiv a b) = some (if b = 0 then 0 else a / b) := by
  by_cases h : b = 0 <;> simp [checkedDiv, h]

theorem forLoop_some {σ : Type} (n : Int) (f : Int → σ → σ) (s : σ) :
    forLoop n (fun i (state : Option σ) => state.bind fun v => some (f i v)) (some s)
      = some (forLoop n f s) := by
  unfold forLoop
  generalize List.range n.toNat = l
  induction l generalizing s with
  | nil => rfl
  | cons a l ih => rw [List.foldl_cons, List.foldl_cons]; exact ih _

theorem Cylinder.buildVerticesChecked_eq {α : Type} [Field α] [DecidableEq α]
    (pi : α) (cosf sinf sqrt : α → α)
    (baseRadius topRadius height : α) (sectorCount stackCount : Int)
    (hsector : (sectorCount : α) ≠ 0) (hstack : (stackCount : α) ≠ 0) (htwo : (2 : α) ≠ 0) :
    Cylinder.buildVerticesChecked pi cosf sinf sqrt baseRadius topRadius height
        sectorCount stackCount
      = some (Cylinder.buildVertices pi cosf sinf sqrt baseRadius topRadius height
          sectorCount stackCount) := by
  simp only [Cylinder.buildVerticesChecked, Cylinder.buildVertices, checkedDiv_guarded,
    checkedDiv_of_ne _ _ hsector, checkedDiv_of_ne _ _ hstack, checkedDiv_of_ne _ _ htwo,
    Option.bind_eq_bind, Option.some_bind, Option.pure_def, forLoop_some]

theorem checkedDiv_zero {α : Type} [Field α] [DecidableEq α] (a : α) :
    checkedDiv a 0 = none := by
  simp [checkedDiv]

/-- On a ring of radius 0 (the apex ring of a cone) `absN` is 0, and the quotient `x / absN`
the conditional expression skips there would be a division by zero. -/
theorem Cylinder.apex_quotient_div_zero (θ : ℝ) :
    Real.sqrt (0 * Real.cos θ * (0 * Real.cos θ) + 0 * Real.sin θ * (0 * Real.sin θ)) = 0 ∧
    checkedDiv (0 * Real.cos θ)
      (Real.sqrt (0 * Real.cos θ * (0 * Real.cos θ) + 0 * Real.sin θ * (0 * Real.sin θ)))
      = none := by
  have h : Real.sqrt (0 * Real.cos θ * (0 * Real.cos θ) + 0 * Real.sin θ * (0 * Real.sin θ))
      = 0 := by simp
  exact ⟨h, by rw [h]; exact checkedDiv_zero _⟩

/-- With `stackCount = 0` the statement `stackStep = height / stackCount` divides by zero. -/
theorem Cylinder.buildVerticesChecked_zero_stacks {α : Type} [Field α] [DecidableEq α]
    (pi : α) (cosf sinf sqrt : α → α)
    (baseRadius topRadius height : α) (sectorCount : Int) :
    Cylinder.buildVerticesChecked pi cosf sinf sqrt baseRadius topRadius height sectorCount 0
      = none := by
  simp [Cylinder.buildVerticesChecked, checkedDiv]

/-- C14: for every valid parameter set and every vertex (stack `i`, sector `j`, ordinal
`i*(sectorCount+1)+j`), the record of the vertex is stored and its normal (offsets 3, 4, 5) has
z component 0 and is radial only: it is `(cos θ, sin θ, 0)`, of length 1, when the ring radius
`radius_i` is positive, and `(0, 0, 0)` when `radius_i = 0` (the apex ring of a cone); the ring
radius is never negative.  No division by zero occurs: the vertex loop run with every division
checked (`Cylinder.buildVerticesChecked`) evaluates no division with a zero divisor and ends
with the vertex array of the constructor (over the reals). -/
theorem cylinder_stored_normal (baseRadius topRadius height : ℝ) (sectorCount stackCount : Int)
    (hvalid : Cylinder.ValidParams baseRadius topRadius height sectorCount stackCount)
    (i j : Int) (hi0 : 0 ≤ i) (hi : i ≤ stackCount) (hj0 : 0 ≤ j) (hj : j ≤ sectorCount) :
    Cylinder.buildVerticesChecked Real.pi Real.cos Real.sin Real.sqrt baseRadius topRadius
        height sectorCount stackCount
      = some (Cylinder.Cylinder Real.pi Real.cos Real.sin Real.sqrt baseRadius topRadius height
          sectorCount stackCount).vertices ∧
    (Cylinder.Cylinder Real.pi Real.cos Real.sin Real.sqrt baseRadius topRadius height
        sectorCount stackCount).vertices[(8 * (i * (sectorCount + 1) + j)).toNat + 5]?
      = some 0 ∧
    0 ≤ Cylinder.ringRadius baseRadius topRadius stackCount i ∧
    (0 < Cylinder.ringRadius baseRadius topRadius stackCount i →
      (Cylinder.Cylinder Real.pi Real.cos Real.sin Real.sqrt baseRadius topRadius height
          sectorCount stackCount).vertices[(8 * (i * (sectorCount + 1) + j)).toNat + 3]?
        = some (Real.cos ((j : ℝ) * (2 * Real.pi / (sectorCount : ℝ)))) ∧
      (Cylinder.Cylinder Real.pi Real.cos Real.sin Real.sqrt baseRadius topRadius height
          sectorCount stackCount).vertices[(8 * (i * (sectorCount + 1) + j)).toNat + 4]?
        = some (Real.sin ((j : ℝ) * (2 * Real.pi / (sectorCount : ℝ)))) ∧
      Real.cos ((j : ℝ) * (2 * Real.pi / (sectorCount : ℝ))) ^ 2
        + Real.sin ((j : ℝ) * (2 * Real.pi / (sectorCount : ℝ))) ^ 2 + (0 : ℝ) ^ 2 = 1) ∧
    (Cylinder.ringRadius baseRadius topRadius stackCount i = 0 →
      (Cylinder.Cylinder Real.pi Real.cos Real.sin Real.sqrt baseRadius topRadius height
          sectorCount stackCount).vertices[(8 * (i * (sectorCount + 1) + j)).toNat + 3]?
        = some 0 ∧
      (Cylinder.Cylinder Real.pi Real.cos Real.sin Real.sqrt baseRadius topRadius height
          sectorCount stackCount).vertices[(8 * (i * (sectorCount + 1) + j)).toNat + 4]?
        = some 0) := by
  obtain ⟨hb, ht, _, _, hsector, hstack⟩ := hvalid
  have hsc : (sectorCount : ℝ) ≠ 0 := by
    have : (0 : ℝ) < (sectorCount : ℝ) := by exact_mod_cast (by omega : (0 : Int) < sectorCount)
    exact ne_of_gt this
  have hst : (stackCount : ℝ) ≠ 0 := by
    have : (0 : ℝ) < (stackCount : ℝ) := by exact_mod_cast (by omega : (0 : Int) < stackCount)
    exact ne_of_gt this
  refine ⟨Cylinder.buildVerticesChecked_eq Real.pi Real.cos Real.sin Real.sqrt baseRadius
    topRadius height sectorCount stackCount hsc hst two_ne_zero, ?_⟩
  lift sectorCount to ℕ using by omega
  lift stackCount to ℕ using by omega
  lift i to ℕ using hi0
  lift j to ℕ using hj0
  have hi' : i ≤ stackCount := by exact_mod_cast hi
  have hj' : j ≤ sectorCount := by exact_mod_cast hj
  have hidx : (8 * ((i : Int) * ((sectorCount : Int) + 1) + (j : Int))).toNat
      = 8 * (i * (sectorCount + 1) + j) := by
    have : (8 * ((i : Int) * ((sectorCount : Int) + 1) + (j : Int)))
        = ((8 * (i * (sectorCount + 1) + j) : Nat) : Int) := by push_cast; ring
    rw [this, Int.toNat_ofNat]
  have hr := Cylinder.ringRadius_nonneg baseRadius topRadius hb ht stackCount i
    (by exact_mod_cast hstack) hi'
  have h3 := Cylinder.vertices_getElem? Real.pi Real.cos Real.sin Real.sqrt
    baseRadius topRadius height sectorCount stackCount i j 3 hi' hj' (by decide)
  have h4 := Cylinder.vertices_getElem? Real.pi Real.cos Real.sin Real.sqrt
    baseRadius topRadius height sectorCount stackCount i j 4 hi' hj' (by decide)
  have h5 := Cylinder.vertices_getElem? Real.pi Real.cos Real.sin Real.sqrt
    baseRadius topRadius height sectorCount stackCount i j 5 hi' hj' (by decide)
  rw [hidx, h3, h4, h5, Cylinder.ringRadius_cast]
  simp only [Cylinder.vertexRecord, Int.cast_natCast, List.getElem?_cons_succ,
    List.getElem?_cons_zero]
  generalize baseRadius + (i : ℝ) / (stackCount : ℝ) * (topRadius - baseRadius) = r at hr ⊢
  generalize (j : ℝ) * (2 * Real.pi / (sectorCount : ℝ)) = θ
  have hsq : Real.sqrt (r * Real.cos θ * (r * Real.cos θ) + r * Real.sin θ * (r * Real.sin θ))
      = r := by
    have e : r * Real.cos θ * (r * Real.cos θ) + r * Real.sin θ * (r * Real.sin θ) = r ^ 2 := by
      have := Real.cos_sq_add_sin_sq θ
      linear_combination (r ^ 2) * this
    rw [e, Real.sqrt_sq hr]
  rw [hsq]
  refine ⟨trivial, hr, ?_, ?_⟩
  · intro hpos
    rw [if_neg hpos.ne', if_neg hpos.ne', mul_div_cancel_left₀ _ hpos.ne',
      mul_div_cancel_left₀ _ hpos.ne']
    refine ⟨rfl, rfl, ?_⟩
    have := Real.cos_sq_add_sin_sq θ
    linarith
  · intro h0
    rw [if_pos h0, if_pos h0]
    exact ⟨rfl, rfl⟩

/-- Two vertices: stack 1, sector 4 of `Cylinder(1, 1, 1, 16, 1)` (ring radius 1), whose stored
normal is `(cos θ, sin θ, 0)`, and sector 5 of the apex ring (stack 2, ring radius 0) of the
cone `Cylinder(1, 0, 1, 16, 2)`, whose stored normal is `(0, 0, 0)`; for both meshes the
checked vertex loop ends without a division by zero. -/
theorem cylinder_stored_normal_witness :
    (Cylinder.buildVerticesChecked Real.pi Real.cos Real.sin Real.sqrt (1 : ℝ) 1 1 16 1
        = some (Cylinder.Cylinder Real.pi Real.cos Real.sin Real.sqrt (1 : ℝ) 1 1
          16 1).vertices ∧
      (Cylinder.Cylinder Real.pi Real.cos Real.sin Real.sqrt (1 : ℝ) 1 1
          16 1).vertices[(8 * ((1 : Int) * (16 + 1) + 4)).toNat + 3]?
        = some (Real.cos (((4 : Int) : ℝ) * (2 * Real.pi / ((16 : Int) : ℝ)))) ∧
      (Cylinder.Cylinder Real.pi Real.cos Real.sin Real.sqrt (1 : ℝ) 1 1
          16 1).vertices[(8 * ((1 : Int) * (16 + 1) + 4)).toNat + 4]?
        = some (Real.sin (((4 : Int) : ℝ) * (2 * Real.pi / ((16 : Int) : ℝ)))) ∧
      (Cylinder.Cylinder Real.pi Real.cos Real.sin Real.sqrt (1 : ℝ) 1 1
          16 1).vertices[(8 * ((1 : Int) * (16 + 1) + 4)).toNat + 5]? = some 0) ∧
    (Cylinder.buildVerticesChecked Real.pi Real.cos Real.sin Real.sqrt (1 : ℝ) 0 1 16 2
        = some (Cylinder.Cylinder Real.pi Real.cos Real.sin Real.sqrt (1 : ℝ) 0 1
          16 2).vertices ∧
      (Cylinder.Cylinder Real.pi Real.cos Real.sin Real.sqrt (1 : ℝ) 0 1
          16 2).vertices[(8 * ((2 : Int) * (16 + 1) + 5)).toNat + 3]? = some 0 ∧
      (Cylinder.Cylinder Real.pi Real.cos Real.sin Real.sqrt (1 : ℝ) 0 1
          16 2).vertices[(8 * ((2 : Int) * (16 + 1) + 5)).toNat + 4]? = some 0 ∧
      (Cylinder.Cylinder Real.pi Real.cos Real.sin Real.sqrt (1 : ℝ) 0 1
          16 2).vertices[(8 * ((2 : Int) * (16 + 1) + 5)).toNat + 5]? = some 0) :=
  have h := cylinder_stored_normal 1 1 1 16 1
    ⟨by norm_num, by norm_num, by norm_num, by norm_num, by decide, by decide⟩
    1 4 (by decide) (by decide) (by decide) (by decide)
  have hpos := h.2.2.2.1 (by norm_num [Cylinder.ringRadius])
  have g := cylinder_stored_normal 1 0 1 16 2
    ⟨by norm_num, by norm_num, by norm_num, by norm_num, by decide, by decide⟩
    2 5 (by decide) (by decide) (by decide) (by decide)
  have hzero := g.2.2.2.2 (by norm_num [Cylinder.ringRadius])
  ⟨⟨h.1, hpos.1, hpos.2.1, h.2.1⟩, ⟨g.1, hzero.1, hzero.2, g.2.1⟩⟩

theorem Cylinder.uv_eq (baseRadius topRadius height : ℝ)
    (sectorCount stackCount i j : Nat) (hi : i ≤ stackCount) (hj : j ≤ sectorCount) :
    (Cylinder.Cylinder Real.pi Real.cos Real.sin Real.sqrt baseRadius topRadius height
        (sectorCount : Int) (stackCount : Int)).vertices[
          (8 * ((i : Int) * ((sectorCount : Int) + 1) + (j : Int))).toNat + 6]?
      = some ((j : ℝ) / (sectorCount : ℝ)) ∧
    (Cylinder.Cylinder Real.pi Real.cos Real.sin Real.sqrt baseRadius topRadius height
        (sectorCount : Int) (stackCount : Int)).vertices[
          (8 * ((i : Int) * ((sectorCount : Int) + 1) + (j : Int))).toNat + 7]?
      = some ((i : ℝ) / (stackCount : ℝ)) := by
  have hidx : (8 * ((i : Int) * ((sectorCount : Int) + 1) + (j : Int))).toNat
      = 8 * (i * (sectorCount + 1) + j) := by
    have : (8 * ((i : Int) * ((sectorCount : Int) + 1) + (j : Int)))
        = ((8 * (i * (sectorCount + 1) + j) : Nat) : Int) := by push_cast; ring
    rw [this, Int.toNat_ofNat]
  have h6 := Cylinder.vertices_getElem? Real.pi Real.cos Real.sin Real.sqrt
    baseRadius topRadius height sectorCount stackCount i j 6 hi hj (by decide)
  have h7 := Cylinder.vertices_getElem? Real.pi Real.cos Real.sin Real.sqrt
    baseRadius topRadius height sectorCount stackCount i j 7 hi hj (by decide)
  rw [hidx, h6, h7]
  simp [Cylinder.vertexRecord]

/-- C15: for every valid parameter set, the vertex at stack `i` and sector `j` has the texture
coordinates `(j/sectorCount, i/stackCount)` at offsets 6 and 7 of its record, as fractions of
real numbers; both lie in `[0, 1]`, with `u = 0` at `j = 0`, `u = 1` at `j = sectorCount`,
`t = 0` on the bottom ring and `t = 1` on the top ring. -/
theorem Cylinder.texture_coordinates (baseRadius topRadius height : ℝ)
    (sectorCount stackCount : Int)
    (hvalid : Cylinder.ValidParams baseRadius topRadius height sectorCount stackCount)
    (i j : Int) (hi0 : 0 ≤ i) (hi : i ≤ stackCount) (hj0 : 0 ≤ j) (hj : j ≤ sectorCount) :
    ((Cylinder.Cylinder Real.pi Real.cos Real.sin Real.sqrt baseRadius topRadius height
        sectorCount stackCount).vertices[(8 * (i * (sectorCount + 1) + j)).toNat + 6]?
      = some ((j : ℝ) / (sectorCount : ℝ)) ∧
    (Cylinder.Cylinder Real.pi Real.cos Real.sin Real.sqrt baseRadius topRadius height
        sectorCount stackCount).vertices[(8 * (i * (sectorCount + 1) + j)).toNat + 7]?
      = some ((i : ℝ) / (stackCount : ℝ))) ∧
    (0 ≤ (j : ℝ) / (sectorCount : ℝ) ∧ (j : ℝ) / (sectorCount : ℝ) ≤ 1 ∧
      0 ≤ (i : ℝ) / (stackCount : ℝ) ∧ (i : ℝ) / (stackCount : ℝ) ≤ 1) ∧
    (((0 : Int) : ℝ) / (sectorCount : ℝ) = 0 ∧ (sectorCount : ℝ) / (sectorCount : ℝ) = 1 ∧
      ((0 : Int) : ℝ) / (stackCount : ℝ) = 0 ∧ (stackCount : ℝ) / (stackCount : ℝ) = 1) := by
  obtain ⟨_, _, _, _, hsector, hstack⟩ := hvalid
  have hsc : (0 : ℝ) < (sectorCount : ℝ) := by exact_mod_cast (by omega : (0 : Int) < sectorCount)
  have hst : (0 : ℝ) < (stackCount : ℝ) := by exact_mod_cast (by omega : (0 : Int) < stackCount)
  have hj0' : (0 : ℝ) ≤ (j : ℝ) := by exact_mod_cast hj0
  have hi0' : (0 : ℝ) ≤ (i : ℝ) := by exact_mod_cast hi0
  have hj' : (j : ℝ) ≤ (sectorCount : ℝ) := by exact_mod_cast hj
  have hi' : (i : ℝ) ≤ (stackCount : ℝ) := by exact_mod_cast hi
  refine ⟨?_, ⟨div_nonneg hj0' hsc.le, (div_le_one hsc).mpr hj', div_nonneg hi0' hst.le,
    (div_le_one hst).mpr hi'⟩, ⟨by simp, div_self hsc.ne', by simp, div_self hst.ne'⟩⟩
  lift sectorCount to ℕ using by omega
  lift stackCount to ℕ using by omega
  lift i to ℕ using hi0
  lift j to ℕ using hj0
  have h := Cylinder.uv_eq baseRadius topRadius height sectorCount stackCount i j
    (by exact_mod_cast hi) (by exact_mod_cast hj)
  simpa only [Int.cast_natCast] using h

/-- The vertex at stack 1, sector 4 of `Cylinder(1, 1, 1, 16, 1)` has texture coordinates
`(4/16, 1/1)`. -/
theorem Cylinder.texture_coordinates_witness :
    (Cylinder.Cylinder Real.pi Real.cos Real.sin Real.sqrt (1 : ℝ) 1 1
        16 1).vertices[(8 * ((1 : Int) * (16 + 1) + 4)).toNat + 6]?
      = some (((4 : Int) : ℝ) / ((16 : Int) : ℝ)) ∧
    (Cylinder.Cylinder Real.pi Real.cos Real.sin Real.sqrt (1 : ℝ) 1 1
        16 1).vertices[(8 * ((1 : Int) * (16 + 1) + 4)).toNat + 7]?
      = some (((1 : Int) : ℝ) / ((1 : Int) : ℝ)) :=
  (Cylinder.texture_coordinates 1 1 1 16 1
    ⟨by norm_num, by norm_num, by norm_num, by norm_num, by decide, by decide⟩
    1 4 (by decide) (by decide) (by decide) (by decide)).1

/-- C18: for every valid parameter set and every stack `i`, the vertices at sector `j = 0` and
`j = sectorCount` of the ring have the same position and the same stored normal, but the
texture coordinate `u` is 0 at the first and 1 at the second: each ring carries a duplicated
seam vertex, and the mesh has `sectorCount+1` vertices per ring, `(sectorCount+1)*(stackCount+1)`
in all (over the reals). -/
theorem cylinder_seam_vertex (baseRadius topRadius height : ℝ) (sectorCount stackCount : Int)
    (hvalid : Cylinder.ValidParams baseRadius topRadius height sectorCount stackCount)
    (i : Int) (hi0 : 0 ≤ i) (hi : i ≤ stackCount)
    (c : Cylinder ℝ)
    (hc : c = Cylinder.Cylinder Real.pi Real.cos Real.sin Real.sqrt baseRadius topRadius height
      sectorCount stackCount) :
    c.position (i * (sectorCount + 1) + 0) = c.position (i * (sectorCount + 1) + sectorCount) ∧
    c.normal (i * (sectorCount + 1) + 0) = c.normal (i * (sectorCount + 1) + sectorCount) ∧
    c.vertices[(8 * (i * (sectorCount + 1) + 0)).toNat + 6]? = some 0 ∧
    c.vertices[(8 * (i * (sectorCount + 1) + sectorCount)).toNat + 6]? = some 1 ∧
    ((c.vertices.length / 8 : Nat) : Int) = (sectorCount + 1) * (stackCount + 1) := by
  obtain ⟨hb, ht, _, _, hsector, hstack⟩ := hvalid
  lift sectorCount to ℕ using by omega
  lift stackCount to ℕ using by omega
  lift i to ℕ using hi0
  have hi' : i ≤ stackCount := by exact_mod_cast hi
  have hsc : (sectorCount : ℝ) ≠ 0 := by
    have : (0 : ℝ) < (sectorCount : ℝ) := by
      exact_mod_cast (by omega : (0 : Int) < (sectorCount : Int))
    exact this.ne'
  have hk0 : (i : Int) * ((sectorCount : Int) + 1) + 0
      = ((i * (sectorCount + 1) + 0 : Nat) : Int) := by push_cast; ring
  have hk1 : (i : Int) * ((sectorCount : Int) + 1) + (sectorCount : Int)
      = ((i * (sectorCount + 1) + sectorCount : Nat) : Int) := by push_cast; ring
  have hr := Cylinder.ringRadius_nonneg baseRadius topRadius hb ht stackCount i
    (by exact_mod_cast hstack) hi'
  have hangle : (sectorCount : ℝ) * (2 * Real.pi / (sectorCount : ℝ)) = 2 * Real.pi := by
    field_simp
  have u0 := (Cylinder.uv_eq baseRadius topRadius height sectorCount stackCount i 0 hi'
    (Nat.zero_le _)).1
  have u1 := (Cylinder.uv_eq baseRadius topRadius height sectorCount stackCount i sectorCount
    hi' le_rfl).1
  subst hc
  refine ⟨?_, ?_, ?_, ?_, ?_⟩
  · rw [hk0, hk1, Cylinder.position_eq _ _ _ _ _ i 0 hi' (Nat.zero_le _),
      Cylinder.position_eq _ _ _ _ _ i sectorCount hi' le_rfl, hangle]
    simp
  · rw [hk0, hk1, Cylinder.normal_eq _ _ _ _ _ i 0 hi' (Nat.zero_le _) hr,
      Cylinder.normal_eq _ _ _ _ _ i sectorCount hi' le_rfl hr, hangle]
    simp
  · simpa using u0
  · rw [u1, div_self hsc]
  · rw [Cylinder.vertex_count]
    push_cast
    ring

/-- The seam of the bottom ring of `Cylinder(1, 1, 1, 16, 1)`: vertices 0 and 16 coincide in
position and normal and differ in `u`. -/
theorem cylinder_seam_vertex_witness :
    (Cylinder.Cylinder Real.pi Real.cos Real.sin Real.sqrt (1 : ℝ) 1 1 16 1).position
        (0 * (16 + 1) + 0)
      = (Cylinder.Cylinder Real.pi Real.cos Real.sin Real.sqrt (1 : ℝ) 1 1 16 1).position
        (0 * (16 + 1) + 16) ∧
    (Cylinder.Cylinder Real.pi Real.cos Real.sin Real.sqrt (1 : ℝ) 1 1 16 1).normal
        (0 * (16 + 1) + 0)
      = (Cylinder.Cylinder Real.pi Real.cos Real.sin Real.sqrt (1 : ℝ) 1 1 16 1).normal
        (0 * (16 + 1) + 16) ∧
    (Cylinder.Cylinder Real.pi Real.cos Real.sin Real.sqrt (1 : ℝ) 1 1
        16 1).vertices[(8 * ((0 : Int) * (16 + 1) + 0)).toNat + 6]? = some 0 ∧
    (Cylinder.Cylinder Real.pi Real.cos Real.sin Real.sqrt (1 : ℝ) 1 1
        16 1).vertices[(8 * ((0 : Int) * (16 + 1) + 16)).toNat + 6]? = some 1 ∧
    (((Cylinder.Cylinder Real.pi Real.cos Real.sin Real.sqrt (1 : ℝ) 1 1
        16 1).vertices.length / 8 : Nat) : Int) = (16 + 1) * (1 + 1) :=
  cylinder_seam_vertex 1 1 1 16 1
    ⟨by norm_num, by norm_num, by norm_num, by norm_num, by decide, by decide⟩
    0 (by decide) (by decide) _ rfl

/-! ## Key edges and the wrap and filter indices -/

theorem processInput.onPress_currentWrap (glfwGetKey : Nat → Bool) (key : Nat)
    (body : State → State) (s : State) :
    (processInput.onPress glfwGetKey key body s).currentWrap
      = if glfwGetKey key = true ∧ s.keys key = false then (body s).currentWrap
        else s.currentWrap := by
  unfold processInput.onPress
  split_ifs <;> simp [State.setKey]

theorem processInput.onPress_currentFilter (glfwGetKey : Nat → Bool) (key : Nat)
    (body : State → State) (s : State) :
    (processInput.onPress glfwGetKey key body s).currentFilter
      = if glfwGetKey key = true ∧ s.keys key = false then (body s).currentFilter
        else s.currentFilter := by
  unfold processInput.onPress
  split_ifs <;> simp [State.setKey]

theorem processInput.applyWrap_indices (s : State) (t : Nat) :
    (processInput.applyWrap s t).currentWrap = s.currentWrap ∧
      (processInput.applyWrap s t).currentFilter = s.currentFilter :=
  ⟨rfl, rfl⟩

theorem processInput.applyFilter_indices (s : State) (t : Nat) :
    (processInput.applyFilter s t).currentWrap = s.currentWrap ∧
      (processInput.applyFilter s t).currentFilter = s.currentFilter :=
  ⟨rfl, rfl⟩

theorem processInput_indices (glfwGetKey : Nat → Bool) (s : State) :
    (processInput glfwGetKey s).currentWrap
      = (if glfwGetKey GLFW_KEY_R = true ∧ s.keys GLFW_KEY_R = false
          then Int.tmod (s.currentWrap + 1) 3 else s.currentWrap) ∧
    (processInput glfwGetKey s).currentFilter
      = (if glfwGetKey GLFW_KEY_M = true ∧ s.keys GLFW_KEY_M = false
          then Int.tmod (s.currentFilter + 1) 2 else s.currentFilter) ∧
    (processInput glfwGetKey s).keys GLFW_KEY_R = glfwGetKey GLFW_KEY_R ∧
    (processInput glfwGetKey s).keys GLFW_KEY_M = glfwGetKey GLFW_KEY_M := by
  unfold processInput
  have hk : (if glfwGetKey GLFW_KEY_ESCAPE = true then { s with windowShouldClose := true }
      else s).keys = s.keys := by split_ifs <;> rfl
  have hw : (if glfwGetKey GLFW_KEY_ESCAPE = true then { s with windowShouldClose := true }
      else s).currentWrap = s.currentWrap := by split_ifs <;> rfl
  have hf : (if glfwGetKey GLFW_KEY_ESCAPE = true then { s with windowShouldClose := true }
      else s).currentFilter = s.currentFilter := by split_ifs <;> rfl
  generalize (if glfwGetKey GLFW_KEY_ESCAPE = true then { s with windowShouldClose := true }
      else s) = s0 at hk hw hf ⊢
  rw [← hk, ← hw, ← hf]
  simp [processInput.toggle, processInput.onPress_keys, processInput.onPress_currentWrap,
    processInput.onPress_currentFilter, State.setKey,
    (processInput.applyWrap_frame _ _).2, (processInput.applyFilter_frame _ _).2,
    (processInput.applyWrap_indices _ _).1, (processInput.applyWrap_indices _ _).2,
    (processInput.applyFilter_indices _ _).1, (processInput.applyFilter_indices _ _).2,
    GLFW_KEY_0, GLFW_KEY_1, GLFW_KEY_2, GLFW_KEY_3, GLFW_KEY_4, GLFW_KEY_C, GLFW_KEY_F,
    GLFW_KEY_M, GLFW_KEY_P, GLFW_KEY_R]
  exact ⟨fun h _ => h, fun h _ => h⟩

theorem processInput_currentWrap (glfwGetKey : Nat → Bool) (s : State) :
    (processInput glfwGetKey s).currentWrap
      = (if glfwGetKey GLFW_KEY_R = true ∧ s.keys GLFW_KEY_R = false
          then Int.tmod (s.currentWrap + 1) 3 else s.currentWrap) :=
  (processInput_indices glfwGetKey s).1

theorem processInput_currentFilter (glfwGetKey : Nat → Bool) (s : State) :
    (processInput glfwGetKey s).currentFilter
      = (if glfwGetKey GLFW_KEY_M = true ∧ s.keys GLFW_KEY_M = false
          then Int.tmod (s.currentFilter + 1) 2 else s.currentFilter) :=
  (processInput_indices glfwGetKey s).2.1

theorem processInput_keys_R (glfwGetKey : Nat → Bool) (s : State) :
    (processInput glfwGetKey s).keys GLFW_KEY_R = glfwGetKey GLFW_KEY_R :=
  (processInput_indices glfwGetKey s).2.2.1

theorem processInput_keys_M (glfwGetKey : Nat → Bool) (s : State) :
    (processInput glfwGetKey s).keys GLFW_KEY_M = glfwGetKey GLFW_KEY_M :=
  (processInput_indices glfwGetKey s).2.2.2

theorem processInput_wrap_reads (s : State) (h : s.keys GLFW_KEY_R = false) :
    ∀ t ∈ [s.woodTexture, s.waterTexture, s.canopyTexture],
      (processInput (onlyKey GLFW_KEY_R) s).texParameter t GL_TEXTURE_WRAP_S
        = arrayRead wrapModes (Int.tmod (s.currentWrap + 1) 3) ∧
      (processInput (onlyKey GLFW_KEY_R) s).texParameter t GL_TEXTURE_WRAP_T
        = arrayRead wrapModes (Int.tmod (s.currentWrap + 1) 3) := by
  simp only [GLFW_KEY_R] at h
  intro t ht
  simp only [List.mem_cons, List.mem_singleton, List.not_mem_nil, or_false] at ht
  simp [processInput, processInput.onPress, processInput.toggle, onlyKey, State.setKey,
    processInput.applyWrap, glBindTexture, glTexParameteri, h,
    GLFW_KEY_0, GLFW_KEY_1, GLFW_KEY_2, GLFW_KEY_3, GLFW_KEY_4, GLFW_KEY_C, GLFW_KEY_F,
    GLFW_KEY_M, GLFW_KEY_P, GLFW_KEY_R, GLFW_KEY_ESCAPE, GL_TEXTURE_WRAP_S, GL_TEXTURE_WRAP_T]
  constructor <;> intro h1 h2 h3 <;> rcases ht with h | h | h <;> contradiction

theorem processInput_filter_reads (s : State) (h : s.keys GLFW_KEY_M = false) :
    ∀ t ∈ [s.woodTexture, s.waterTexture, s.canopyTexture],
      (processInput (onlyKey GLFW_KEY_M) s).texParameter t GL_TEXTURE_MIN_FILTER
        = arrayRead filterModes (Int.tmod (s.currentFilter + 1) 2) ∧
      (processInput (onlyKey GLFW_KEY_M) s).texParameter t GL_TEXTURE_MAG_FILTER
        = arrayRead filterModes (Int.tmod (s.currentFilter + 1) 2) := by
  simp only [GLFW_KEY_M] at h
  intro t ht
  simp only [List.mem_cons, List.mem_singleton, List.not_mem_nil, or_false] at ht
  simp [processInput, processInput.onPress, processInput.toggle, onlyKey, State.setKey,
    processInput.applyFilter, glBindTexture, glTexParameteri, h,
    GLFW_KEY_0, GLFW_KEY_1, GLFW_KEY_2, GLFW_KEY_3, GLFW_KEY_4, GLFW_KEY_C, GLFW_KEY_F,
    GLFW_KEY_M, GLFW_KEY_P, GLFW_KEY_R, GLFW_KEY_ESCAPE, GL_TEXTURE_MIN_FILTER,
    GL_TEXTURE_MAG_FILTER]
  constructor <;> intro h1 h2 h3 <;> rcases ht with h | h | h <;> contradiction

theorem processInput_gTexMode_edges (s : State) (previous current : Nat → Bool) :
    (processInput current (processInput previous s)).gTexMode
      = if current GLFW_KEY_3 = true ∧ previous GLFW_KEY_3 = false then .TEX_BLEND_FRAGMENT
        else if current GLFW_KEY_2 = true ∧ previous GLFW_KEY_2 = false then .TEX_BLEND_VERTEX
        else if current GLFW_KEY_1 = true ∧ previous GLFW_KEY_1 = false then .TEX_SIMPLE
        else if current GLFW_KEY_0 = true ∧ previous GLFW_KEY_0 = false then .TEX_OFF
        else (processInput previous s).gTexMode := by
  obtain ⟨h0, h1, h2, h3⟩ := processInput_digit_keys previous s
  rw [processInput_gTexMode, h0, h1, h2, h3]

theorem processInput_no_new_digit (s : State) (previous current : Nat → Bool)
    (h : ∀ k : Fin 4, current (digitKey k) = true → previous (digitKey k) = true) :
    (processInput current (processInput previous s)).gTexMode
      = (processInput previous s).gTexMode := by
  rw [processInput_gTexMode_edges]
  have h0 := h 0
  have h1 := h 1
  have h2 := h 2
  have h3 := h 3
  simp only [digitKey] at h0 h1 h2 h3
  split_ifs <;> simp_all

theorem processInputSteps_held (later : List (Nat → Bool)) :
    ∀ (current : Nat → Bool) (s : State), current GLFW_KEY_1 = true →
      List.Chain' (fun a b : Nat → Bool => b GLFW_KEY_1 = true ∧
        ∀ k : Fin 4, k ≠ 1 → ¬ (b (digitKey k) = true ∧ a (digitKey k) = false))
        (current :: later) →
      (processInputSteps later (processInput current s)).gTexMode
        = (processInput current s).gTexMode := by
  induction later with
  | nil => intro current s _ _; rfl
  | cons b later ih =>
    intro current s hheld hchain
    rw [List.chain'_cons] at hchain
    obtain ⟨⟨hb1, hb⟩, hrest⟩ := hchain
    have hstep : (processInput b (processInput current s)).gTexMode
        = (processInput current s).gTexMode := by
      apply processInput_no_new_digit
      intro k hk
      by_cases h1 : k = 1
      · subst h1; exact hheld
      · have := hb k h1
        simp only [not_and, Bool.not_eq_false] at this
        exact this hk
    show (processInputSteps later (processInput b (processInput current s))).gTexMode = _
    rw [ih b (processInput current s) hb1 hrest, hstep]

/-- C16: mode changes follow key-press edges, not key levels.  After two consecutive
`processInput` steps the mode is decided by the digit keys that are down in the second step
and were up in the first, and is unchanged when there is none: a digit key that stays down
sets `gTexMode` in the first step only.  So when key 1 is down in both steps and key 0 is
newly pressed in the second (keys 2 and 3 are not), `gTexMode` becomes `TEX_OFF`, and it is
still `TEX_OFF` after any number of later steps in each of which key 1 is down and none of the
keys 0, 2, 3 is newly pressed. -/
theorem processInput_edge_triggered (s : State) (previous current : Nat → Bool)
    (later : List (Nat → Bool)) :
    ((processInput current (processInput previous s)).gTexMode
      = if current GLFW_KEY_3 = true ∧ previous GLFW_KEY_3 = false then .TEX_BLEND_FRAGMENT
        else if current GLFW_KEY_2 = true ∧ previous GLFW_KEY_2 = false then .TEX_BLEND_VERTEX
        else if current GLFW_KEY_1 = true ∧ previous GLFW_KEY_1 = false then .TEX_SIMPLE
        else if current GLFW_KEY_0 = true ∧ previous GLFW_KEY_0 = false then .TEX_OFF
        else (processInput previous s).gTexMode) ∧
    ((∀ k : Fin 4, current (digitKey k) = true → previous (digitKey k) = true) →
      (processInput current (processInput previous s)).gTexMode
        = (processInput previous s).gTexMode) ∧
    (previous GLFW_KEY_1 = true → current GLFW_KEY_1 = true →
      previous GLFW_KEY_0 = false → current GLFW_KEY_0 = true →
      ¬ (current GLFW_KEY_2 = true ∧ previous GLFW_KEY_2 = false) →
      ¬ (current GLFW_KEY_3 = true ∧ previous GLFW_KEY_3 = false) →
      List.Chain' (fun a b : Nat → Bool => b GLFW_KEY_1 = true ∧
        ∀ k : Fin 4, k ≠ 1 → ¬ (b (digitKey k) = true ∧ a (digitKey k) = false))
        (current :: later) →
      (processInput current (processInput previous s)).gTexMode = .TEX_OFF ∧
      (processInputSteps later (processInput current (processInput previous s))).gTexMode
        = .TEX_OFF) := by
  refine ⟨processInput_gTexMode_edges s previous current,
    processInput_no_new_digit s previous current, ?_⟩
  intro hp1 hc1 hp0 hc0 h2 h3 hchain
  have hoff : (processInput current (processInput previous s)).gTexMode = .TEX_OFF := by
    rw [processInput_gTexMode_edges, if_neg h3, if_neg h2, if_neg (by simp [hp1]),
      if_pos ⟨hc0, hp0⟩]
  exact ⟨hoff, by rw [processInputSteps_held later current _ hc1 hchain, hoff]⟩

/-- From the initial state: key 1 alone, then keys 0 and 1 together, then twice key 1 alone
again; the mode is `TEX_OFF` after the second step and still after the fourth. -/
theorem processInput_edge_triggered_witness :
    (processInput (fun k => decide (k = GLFW_KEY_0 ∨ k = GLFW_KEY_1))
        (processInput (onlyKey GLFW_KEY_1) State.initial)).gTexMode = .TEX_OFF ∧
    (processInputSteps [onlyKey GLFW_KEY_1, onlyKey GLFW_KEY_1]
        (processInput (fun k => decide (k = GLFW_KEY_0 ∨ k = GLFW_KEY_1))
          (processInput (onlyKey GLFW_KEY_1) State.initial))).gTexMode = .TEX_OFF :=
  (processInput_edge_triggered State.initial (onlyKey GLFW_KEY_1)
    (fun k => decide (k = GLFW_KEY_0 ∨ k = GLFW_KEY_1))
    [onlyKey GLFW_KEY_1, onlyKey GLFW_KEY_1]).2.2
    (by decide) (by decide) (by decide) (by decide) (by decide) (by decide)
    (by
      simp only [List.chain'_cons, List.chain'_singleton, and_true]
      refine ⟨⟨by decide, by decide⟩, ⟨by decide, by decide⟩⟩)

theorem processInput_indices_inv (glfwGetKey : Nat → Bool) (s : State)
    (h : 0 ≤ s.currentWrap ∧ s.currentWrap < 3 ∧ 0 ≤ s.currentFilter ∧ s.currentFilter < 2) :
    0 ≤ (processInput glfwGetKey s).currentWrap ∧ (processInput glfwGetKey s).currentWrap < 3 ∧
      0 ≤ (processInput glfwGetKey s).currentFilter ∧
      (processInput glfwGetKey s).currentFilter < 2 := by
  obtain ⟨hw0, hw, hf0, hf⟩ := h
  rw [processInput_currentWrap, processInput_currentFilter]
  have hwc : s.currentWrap = 0 ∨ s.currentWrap = 1 ∨ s.currentWrap = 2 := by omega
  have hfc : s.currentFilter = 0 ∨ s.currentFilter = 1 := by omega
  refine ⟨?_, ?_, ?_, ?_⟩
  · split_ifs
    · rcases hwc with h | h | h <;> rw [h] <;> decide
    · exact hw0
  · split_ifs
    · rcases hwc with h | h | h <;> rw [h] <;> decide
    · exact hw
  · split_ifs
    · rcases hfc with h | h <;> rw [h] <;> decide
    · exact hf0
  · split_ifs
    · rcases hfc with h | h <;> rw [h] <;> decide
    · exact hf

theorem processInputSteps_indices_inv (inputs : List (Nat → Bool)) :
    ∀ s : State,
      (0 ≤ s.currentWrap ∧ s.currentWrap < 3 ∧ 0 ≤ s.currentFilter ∧ s.currentFilter < 2) →
      0 ≤ (processInputSteps inputs s).currentWrap ∧
        (processInputSteps inputs s).currentWrap < 3 ∧
        0 ≤ (processInputSteps inputs s).currentFilter ∧
        (processInputSteps inputs s).currentFilter < 2 := by
  induction inputs with
  | nil => intro s h; exact h
  | cons g inputs ih =>
    intro s h
    exact ih (processInput g s) (processInput_indices_inv g s h)

theorem arrayRead_wrapModes_isSome (w : Int) (h0 : 0 ≤ w) (h : w < 3) :
    (arrayRead wrapModes w).isSome = true := by
  have hc : w = 0 ∨ w = 1 ∨ w = 2 := by omega
  rcases hc with h | h | h <;> rw [h] <;> decide

theorem arrayRead_filterModes_isSome (f : Int) (h0 : 0 ≤ f) (h : f < 2) :
    (arrayRead filterModes f).isSome = true := by
  have hc : f = 0 ∨ f = 1 := by omega
  rcases hc with h | h <;> rw [h] <;> decide

theorem createSolidTextureRGBA_reads (tex : Nat) (s : State) :
    (createSolidTextureRGBA tex s).texParameter tex GL_TEXTURE_WRAP_S
      = arrayRead wrapModes s.currentWrap ∧
    (createSolidTextureRGBA tex s).texParameter tex GL_TEXTURE_WRAP_T
      = arrayRead wrapModes s.currentWrap ∧
    (createSolidTextureRGBA tex s).texParameter tex GL_TEXTURE_MIN_FILTER
      = arrayRead filterModes s.currentFilter ∧
    (createSolidTextureRGBA tex s).texParameter tex GL_TEXTURE_MAG_FILTER
      = arrayRead filterModes s.currentFilter := by
  simp [createSolidTextureRGBA, glBindTexture, glTexParameteri, GL_TEXTURE_WRAP_S,
    GL_TEXTURE_WRAP_T, GL_TEXTURE_MIN_FILTER, GL_TEXTURE_MAG_FILTER]

theorem three_wrap_presses (s : State)
    (h : 0 ≤ s.currentWrap ∧ s.currentWrap < 3) :
    (processInputSteps [noKey, onlyKey GLFW_KEY_R, noKey, onlyKey GLFW_KEY_R, noKey,
      onlyKey GLFW_KEY_R] s).currentWrap = s.currentWrap := by
  have hc : s.currentWrap = 0 ∨ s.currentWrap = 1 ∨ s.currentWrap = 2 := by omega
  rcases hc with h | h | h <;>
    simp [processInputSteps, processInput_currentWrap, processInput_keys_R, noKey, onlyKey, h] <;>
    decide

theorem two_filter_presses (s : State)
    (h : 0 ≤ s.currentFilter ∧ s.currentFilter < 2) :
    (processInputSteps [noKey, onlyKey GLFW_KEY_M, noKey, onlyKey GLFW_KEY_M]
      s).currentFilter = s.currentFilter := by
  have hc : s.currentFilter = 0 ∨ s.currentFilter = 1 := by omega
  rcases hc with h | h <;>
    simp [processInputSteps, processInput_currentFilter, processInput_keys_M, noKey, onlyKey, h] <;>
    decide

/-- C20: starting from any state with `currentWrap = 0` and `currentFilter = 1`, as at
startup, after any sequence of
`processInput` steps, whatever keys they see (R and M presses among them), `currentWrap` is
0, 1 or 2 and `currentFilter` is 0 or 1.  Every read `wrapModes[currentWrap]` and
`filterModes[currentFilter]` so stays inside the 3- and 2-element arrays: the reads of
`createSolidTextureRGBA`, and the reads a press of R or of M makes with the index it has just
advanced.  Three presses of R, and two presses of M, bring the index back to its value. -/
theorem wrap_filter_indices_in_bounds (s0 : State) (hwrap : s0.currentWrap = 0)
    (hfilter : s0.currentFilter = 1) (inputs : List (Nat → Bool)) (tex : Nat) :
    (0 ≤ (processInputSteps inputs s0).currentWrap ∧
      (processInputSteps inputs s0).currentWrap < 3 ∧
      0 ≤ (processInputSteps inputs s0).currentFilter ∧
      (processInputSteps inputs s0).currentFilter < 2) ∧
    ((arrayRead wrapModes (processInputSteps inputs s0).currentWrap).isSome = true ∧
      (arrayRead filterModes (processInputSteps inputs s0).currentFilter).isSome
        = true) ∧
    (((createSolidTextureRGBA tex (processInputSteps inputs s0)).texParameter tex
        GL_TEXTURE_WRAP_S).isSome = true ∧
      ((createSolidTextureRGBA tex (processInputSteps inputs s0)).texParameter tex
        GL_TEXTURE_WRAP_T).isSome = true ∧
      ((createSolidTextureRGBA tex (processInputSteps inputs s0)).texParameter tex
        GL_TEXTURE_MIN_FILTER).isSome = true ∧
      ((createSolidTextureRGBA tex (processInputSteps inputs s0)).texParameter tex
        GL_TEXTURE_MAG_FILTER).isSome = true) ∧
    (∀ t ∈ [(processInputSteps (inputs ++ [noKey]) s0).woodTexture,
        (processInputSteps (inputs ++ [noKey]) s0).waterTexture,
        (processInputSteps (inputs ++ [noKey]) s0).canopyTexture],
      ((processInputSteps (inputs ++ [noKey, onlyKey GLFW_KEY_R]) s0).texParameter t
        GL_TEXTURE_WRAP_S).isSome = true ∧
      ((processInputSteps (inputs ++ [noKey, onlyKey GLFW_KEY_R]) s0).texParameter t
        GL_TEXTURE_WRAP_T).isSome = true ∧
      ((processInputSteps (inputs ++ [noKey, onlyKey GLFW_KEY_M]) s0).texParameter t
        GL_TEXTURE_MIN_FILTER).isSome = true ∧
      ((processInputSteps (inputs ++ [noKey, onlyKey GLFW_KEY_M]) s0).texParameter t
        GL_TEXTURE_MAG_FILTER).isSome = true) ∧
    ((processInputSteps (inputs ++ [noKey, onlyKey GLFW_KEY_R, noKey, onlyKey GLFW_KEY_R,
        noKey, onlyKey GLFW_KEY_R]) s0).currentWrap
      = (processInputSteps inputs s0).currentWrap) ∧
    ((processInputSteps (inputs ++ [noKey, onlyKey GLFW_KEY_M, noKey, onlyKey GLFW_KEY_M])
        s0).currentFilter
      = (processInputSteps inputs s0).currentFilter) := by
  have hinit : 0 ≤ s0.currentWrap ∧ s0.currentWrap < 3 ∧
      0 ≤ s0.currentFilter ∧ s0.currentFilter < 2 := by
    rw [hwrap, hfilter]
    decide
  have hinv := processInputSteps_indices_inv inputs s0 hinit
  have happ : ∀ l : List (Nat → Bool), processInputSteps (inputs ++ l) s0
      = processInputSteps l (processInputSteps inputs s0) := by
    intro l
    simp [processInputSteps, List.foldl_append]
  generalize processInputSteps inputs s0 = s at hinv happ ⊢
  obtain ⟨hw0, hw, hf0, hf⟩ := hinv
  have hreads := createSolidTextureRGBA_reads tex s
  have hwrap := arrayRead_wrapModes_isSome s.currentWrap hw0 hw
  have hfilter := arrayRead_filterModes_isSome s.currentFilter hf0 hf
  refine ⟨⟨hw0, hw, hf0, hf⟩, ⟨hwrap, hfilter⟩, ?_, ?_, ?_, ?_⟩
  · rw [hreads.1, hreads.2.1, hreads.2.2.1, hreads.2.2.2]
    exact ⟨hwrap, hwrap, hfilter, hfilter⟩
  · have hstep : ∀ g : Nat → Bool, processInputSteps [noKey, g] s
        = processInput g (processInput noKey s) := fun _ => rfl
    have hone : processInputSteps [noKey] s = processInput noKey s := rfl
    have hinv1 := processInput_indices_inv noKey s ⟨hw0, hw, hf0, hf⟩
    have hkR : (processInput noKey s).keys GLFW_KEY_R = false := by
      rw [processInput_keys_R]; rfl
    have hkM : (processInput noKey s).keys GLFW_KEY_M = false := by
      rw [processInput_keys_M]; rfl
    have hnextW : (0 : Int) ≤ Int.tmod ((processInput noKey s).currentWrap + 1) 3 ∧
        Int.tmod ((processInput noKey s).currentWrap + 1) 3 < 3 := by
      have hc : (processInput noKey s).currentWrap = 0 ∨ (processInput noKey s).currentWrap = 1
          ∨ (processInput noKey s).currentWrap = 2 := by omega
      rcases hc with h | h | h <;> rw [h] <;> decide
    have hnextF : (0 : Int) ≤ Int.tmod ((processInput noKey s).currentFilter + 1) 2 ∧
        Int.tmod ((processInput noKey s).currentFilter + 1) 2 < 2 := by
      have hc : (processInput noKey s).currentFilter = 0
          ∨ (processInput noKey s).currentFilter = 1 := by omega
      rcases hc with h | h <;> rw [h] <;> decide
    rw [happ, happ, happ, hone, hstep, hstep]
    intro t ht
    obtain ⟨r1, r2⟩ := processInput_wrap_reads (processInput noKey s) hkR t ht
    obtain ⟨r3, r4⟩ := processInput_filter_reads (processInput noKey s) hkM t ht
    rw [r1, r2, r3, r4]
    exact ⟨arrayRead_wrapModes_isSome _ hnextW.1 hnextW.2,
      arrayRead_wrapModes_isSome _ hnextW.1 hnextW.2,
      arrayRead_filterModes_isSome _ hnextF.1 hnextF.2,
      arrayRead_filterModes_isSome _ hnextF.1 hnextF.2⟩
  · rw [happ]
    exact three_wrap_presses s ⟨hw0, hw⟩
  · rw [happ]
    exact two_filter_presses s ⟨hf0, hf⟩

/-- From the initial state, after a press of R, a release and a press of M, the indices are
1 and 0, inside the arrays. -/
theorem wrap_filter_indices_in_bounds_witness :
    0 ≤ (processInputSteps [onlyKey GLFW_KEY_R, noKey, onlyKey GLFW_KEY_M]
      State.initial).currentWrap ∧
    (processInputSteps [onlyKey GLFW_KEY_R, noKey, onlyKey GLFW_KEY_M]
      State.initial).currentWrap < 3 ∧
    0 ≤ (processInputSteps [onlyKey GLFW_KEY_R, noKey, onlyKey GLFW_KEY_M]
      State.initial).currentFilter ∧
    (processInputSteps [onlyKey GLFW_KEY_R, noKey, onlyKey GLFW_KEY_M]
      State.initial).currentFilter < 2 :=
  (wrap_filter_indices_in_bounds State.initial rfl rfl
    [onlyKey GLFW_KEY_R, noKey, onlyKey GLFW_KEY_M] 7).1

/-! ## The sky and the water of the scene -/

theorem State.drawsExtend_refl (s : State) : s.drawsExtend s :=
  ⟨[], (List.append_nil _).symm⟩

theorem State.drawsExtend_trans {s1 s2 s3 : State} (h12 : s1.drawsExtend s2)
    (h23 : s2.drawsExtend s3) : s1.drawsExtend s3 := by
  obtain ⟨l1, h1⟩ := h12
  obtain ⟨l2, h2⟩ := h23
  exact ⟨l1 ++ l2, by rw [h2, h1, List.append_assoc]⟩

theorem State.drawsExtend_of_eq {s s' : State} (h : s'.drawCalls = s.drawCalls) :
    s.drawsExtend s' :=
  ⟨[], by rw [h, List.append_nil]⟩

theorem forLoop_after (n : Int) (body : Int → State → State) {s0 s : State}
    (hbody : ∀ (i : Int) (s : State), s.drawsExtend (body i s)) (h : s0.drawsExtend s) :
    s0.drawsExtend (forLoop n body s) := by
  unfold forLoop
  generalize List.range n.toNat = l
  induction l generalizing s with
  | nil => exact h
  | cons a l ih =>
    rw [List.foldl_cons]
    exact ih (State.drawsExtend_trans h (hbody _ s))

theorem ite_after {c : Prop} [Decidable c] {s0 a b : State} (ha : s0.drawsExtend a)
    (hb : s0.drawsExtend b) : s0.drawsExtend (if c then a else b) := by
  split_ifs
  · exact ha
  · exact hb

theorem State.setBool_after (name : String) (value : Bool) {s0 s : State}
    (h : s0.drawsExtend s) : s0.drawsExtend (s.setBool name value) :=
  State.drawsExtend_trans h (State.drawsExtend_of_eq rfl)

theorem State.setInt_after (name : String) (value : Int) {s0 s : State}
    (h : s0.drawsExtend s) : s0.drawsExtend (s.setInt name value) :=
  State.drawsExtend_trans h (State.drawsExtend_of_eq rfl)

theorem glBindVertexArray_after (vao : Nat) {s0 s : State} (h : s0.drawsExtend s) :
    s0.drawsExtend (glBindVertexArray vao s) :=
  State.drawsExtend_trans h (State.drawsExtend_of_eq rfl)

theorem glDrawArrays_after (first count : Int) {s0 s : State} (h : s0.drawsExtend s) :
    s0.drawsExtend (glDrawArrays first count s) :=
  State.drawsExtend_trans h ⟨_, rfl⟩

theorem bindTex0_after (texID : Nat) (unit : Int) {s0 s : State} (h : s0.drawsExtend s) :
    s0.drawsExtend (bindTex0 texID unit s) :=
  State.drawsExtend_trans h (State.drawsExtend_of_eq rfl)

theorem bindOrDisable_after (texID : Nat) {s0 s : State} (h : s0.drawsExtend s) :
    s0.drawsExtend (bindOrDisable texID s) :=
  State.drawsExtend_trans h (State.drawsExtend_of_eq (bindOrDisable_drawCalls texID s))

theorem applyTexModeToShader_after {s0 s : State} (h : s0.drawsExtend s) :
    s0.drawsExtend (applyTexModeToShader s) :=
  State.drawsExtend_trans h (State.drawsExtend_of_eq (applyTexModeToShader_frame s).2)

theorem MeshHandle.draw_after (m : MeshHandle) {s0 s : State} (h : s0.drawsExtend s) :
    s0.drawsExtend (m.draw s) :=
  State.drawsExtend_trans h ⟨_, rfl⟩

theorem SimpleCone.coneDraw_after (m : MeshHandle) {s0 s : State} (h : s0.drawsExtend s) :
    s0.drawsExtend (SimpleCone.draw m s) :=
  State.drawsExtend_trans h ⟨_, rfl⟩

theorem drawCube_drawCalls (vao texID : Nat) (s : State) :
    (drawCube vao texID s).drawCalls = s.drawCalls ++
      [{ primitive := .arrays vao 0 36,
         boolUniform := (bindOrDisable texID (applyTexModeToShader s)).boolUniform,
         intUniform := (bindOrDisable texID (applyTexModeToShader s)).intUniform,
         texture := (bindOrDisable texID (applyTexModeToShader s)).boundTexture2D
           ((bindOrDisable texID (applyTexModeToShader s)).intUniform "uTex0") }] := by
  show (bindOrDisable texID (applyTexModeToShader s)).drawCalls ++ _ = _
  rw [bindOrDisable_drawCalls, (applyTexModeToShader_frame s).2]
  rfl

theorem drawCube_after (vao texID : Nat) {s0 s : State} (h : s0.drawsExtend s) :
    s0.drawsExtend (drawCube vao texID s) :=
  State.drawsExtend_trans h ⟨_, drawCube_drawCalls vao texID s⟩

theorem drawPart_after (vao texID : Nat) {s0 s : State} (h : s0.drawsExtend s) :
    s0.drawsExtend (drawStylizedTableSet.drawPart vao texID s) :=
  drawCube_after vao texID h

theorem drawChairPart_after (vao texID : Nat) {s0 s : State} (h : s0.drawsExtend s) :
    s0.drawsExtend (drawStylizedTableSet.drawChairPart vao texID s) :=
  drawCube_after vao texID h

theorem drawMug_after (cylinder : MeshHandle) (texID : Nat) {s0 s : State}
    (h : s0.drawsExtend s) : s0.drawsExtend (drawMug cylinder texID s) := by
  unfold drawMug
  dsimp only
  exact (MeshHandle.draw_after _ (State.setBool_after _ _ (MeshHandle.draw_after _ (bindOrDisable_after _ (applyTexModeToShader_after h)))))

theorem drawCup_after (cylinder : MeshHandle) (texID : Nat) {s0 s : State}
    (h : s0.drawsExtend s) : s0.drawsExtend (drawCup cylinder texID s) := by
  unfold drawCup
  dsimp only
  exact (MeshHandle.draw_after _ (bindOrDisable_after _ (applyTexModeToShader_after h)))

theorem drawStylizedTableSet_after (sphere cylinder cone : MeshHandle) (vao : Nat)
    {s0 s : State} (h : s0.drawsExtend s) :
    s0.drawsExtend (drawStylizedTableSet sphere cylinder cone vao s) := by
  unfold drawStylizedTableSet
  dsimp only
  refine forLoop_after _ _ (fun i s => ?_) ?_
  · exact (drawChairPart_after _ _ (drawChairPart_after _ _ (drawChairPart_after _ _ (drawChairPart_after _ _ (drawChairPart_after _ _ (drawChairPart_after _ _ (State.drawsExtend_refl s)))))))
  · refine (drawPart_after _ _ (drawPart_after _ _ (drawPart_after _ _ (drawPart_after _ _ (SimpleCone.coneDraw_after _ (MeshHandle.draw_after _ ?_))))))
    refine ite_after (bindTex0_after _ _ ?_) (State.setBool_after _ _ ?_)
    · exact (applyTexModeToShader_after (drawCup_after _ _ (drawMug_after _ _ (drawPart_after _ _ (drawPart_after _ _ h)))))
    · exact (applyTexModeToShader_after (drawCup_after _ _ (drawMug_after _ _ (drawPart_after _ _ (drawPart_after _ _ h)))))

theorem drawRiversideScene.floor_after (cubeVAO : Nat) {s0 s : State}
    (h : s0.drawsExtend s) : s0.drawsExtend (drawRiversideScene.floor cubeVAO s) := by
  unfold drawRiversideScene.floor
  dsimp only
  exact (drawCube_after _ _ (drawCube_after _ _ (drawCube_after _ _ (drawCube_after _ _ (drawCube_after _ _ h)))))

theorem drawRiversideScene.canopyFrame_after (sphere cylinder cone : MeshHandle)
    (cubeVAO : Nat) (p : Int) {s0 s : State} (h : s0.drawsExtend s) :
    s0.drawsExtend (drawRiversideScene.canopyFrame sphere cylinder cone cubeVAO p s) := by
  unfold drawRiversideScene.canopyFrame
  dsimp only
  split_ifs
  · exact (drawStylizedTableSet_after _ _ _ _ (drawStylizedTableSet_after _ _ _ _ (forLoop_after _ _ (fun _ s => (MeshHandle.draw_after _ (MeshHandle.draw_after _ (State.setInt_after _ _ (State.setBool_after _ _ (State.drawsExtend_refl s)))))) (drawCube_after _ _ (drawCube_after _ _ (drawCube_after _ _ (drawCube_after _ _ (forLoop_after _ _ (fun _ s => (drawCube_after _ _ (State.drawsExtend_refl s))) h))))))))
  · exact (drawStylizedTableSet_after _ _ _ _ (drawStylizedTableSet_after _ _ _ _ (drawStylizedTableSet_after _ _ _ _ (drawStylizedTableSet_after _ _ _ _ (forLoop_after _ _ (fun _ s => (MeshHandle.draw_after _ (MeshHandle.draw_after _ (State.setInt_after _ _ (State.setBool_after _ _ (State.drawsExtend_refl s)))))) (drawCube_after _ _ (drawCube_after _ _ (drawCube_after _ _ (drawCube_after _ _ (forLoop_after _ _ (fun _ s => (drawCube_after _ _ (State.drawsExtend_refl s))) h))))))))))

theorem drawRiversideScene.glassWalls_after (cubeVAO : Nat) (p : Int) {s0 s : State}
    (h : s0.drawsExtend s) : s0.drawsExtend (drawRiversideScene.glassWalls cubeVAO p s) := by
  unfold drawRiversideScene.glassWalls
  dsimp only
  split_ifs
  · exact (drawCube_after _ _ (drawCube_after _ _ (drawCube_after _ _ h)))
  · exact (drawCube_after _ _ (drawCube_after _ _ (drawCube_after _ _ h)))

theorem drawRiversideScene.railings_after (cubeVAO : Nat) {s0 s : State}
    (h : s0.drawsExtend s) : s0.drawsExtend (drawRiversideScene.railings cubeVAO s) := by
  unfold drawRiversideScene.railings
  dsimp only
  exact forLoop_after _ _ (fun _ s => (drawCube_after _ _ (drawCube_after _ _ (State.drawsExtend_refl s))))
    (drawCube_after _ _ (drawCube_after _ _ (drawCube_after _ _ (drawCube_after _ _ h))))

theorem drawRiversideScene.sky_draw (cubeVAO : Nat) (s : State) :
    ∃ d : DrawCall, (drawRiversideScene.sky cubeVAO s).drawCalls = s.drawCalls ++ [d] ∧
      d.primitive = .arrays cubeVAO 0 36 ∧
      d.boolUniform "isSky" = true ∧ d.boolUniform "isWater" = false ∧
      d.boolUniform "uUseTexture" = false ∧
      d.intUniform "uComputeMode" = (if s.gTexMode = .TEX_BLEND_VERTEX then 0 else 1) := by
  have hd := drawCube_drawCalls cubeVAO 0
    ((((((s.setBool "isDeck" false).setBool "isSky" false).setBool "isWater" false).setBool
      "isSky" true).setBool "uUseTexture" false).setInt "uComputeMode" 1)
  have e : (drawRiversideScene.sky cubeVAO s).drawCalls
      = (drawCube cubeVAO 0 ((((((s.setBool "isDeck" false).setBool "isSky" false).setBool
          "isWater" false).setBool "isSky" true).setBool "uUseTexture" false).setInt
          "uComputeMode" 1)).drawCalls := by
    unfold drawRiversideScene.sky
    dsimp only
    unfold State.setBool
    rfl
  have e1 : ((((((s.setBool "isDeck" false).setBool "isSky" false).setBool "isWater"
      false).setBool "isSky" true).setBool "uUseTexture" false).setInt
        "uComputeMode" 1).drawCalls = s.drawCalls := by
    unfold State.setBool State.setInt
    rfl
  rw [e1] at hd
  rw [e, hd]
  refine ⟨_, rfl, rfl, ?_, ?_, ?_, ?_⟩ <;>
    cases h : s.gTexMode <;>
    simp [bindOrDisable, applyTexModeToShader, State.setBool, State.setInt, h]

theorem drawRiversideScene.water_draw (cubeVAO : Nat) (s : State) :
    ∃ d : DrawCall, (drawRiversideScene.water cubeVAO s).drawCalls = s.drawCalls ++ [d] ∧
      d.primitive = .arrays cubeVAO 0 36 ∧
      d.boolUniform "isWater" = true ∧
      d.boolUniform "uUseTexture" = false ∧
      d.intUniform "uComputeMode" = 1 := by
  refine ⟨_, rfl, rfl, ?_, ?_, ?_⟩ <;> simp [State.setBool, State.setInt, glBindVertexArray]

theorem drawRiversideScene.sky_isSky (cubeVAO : Nat) (s : State) :
    (drawRiversideScene.sky cubeVAO s).boolUniform "isSky" = false := by
  simp [drawRiversideScene.sky, State.setBool]

/-- C19: in `drawRiversideScene`, for every shading mode, the first two draw calls are the sky
cube and the water slab, both issued with `uUseTexture = false`.  The sky cube, drawn through
`drawCube`, is issued with `uComputeMode = 0` exactly when the mode is `TEX_BLEND_VERTEX` and
with `1` otherwise, because `drawCube` applies the mode again after the explicit
`uComputeMode = 1`; the water slab, drawn directly, is always issued with
`uComputeMode = 1`. -/
theorem drawRiversideScene_sky_water (sphere cylinder cone : MeshHandle) (cubeVAO : Nat)
    (s : State) :
    ∃ (sky water : DrawCall) (rest : List DrawCall),
      (drawRiversideScene sphere cylinder cone cubeVAO s).drawCalls
        = s.drawCalls ++ sky :: water :: rest ∧
      (sky.primitive = .arrays cubeVAO 0 36 ∧ sky.boolUniform "isSky" = true ∧
        sky.boolUniform "isWater" = false ∧
        sky.boolUniform "uUseTexture" = false ∧
        sky.intUniform "uComputeMode" = (if s.gTexMode = .TEX_BLEND_VERTEX then 0 else 1)) ∧
      (water.primitive = .arrays cubeVAO 0 36 ∧ water.boolUniform "isWater" = true ∧
        water.boolUniform "isSky" = false ∧
        water.boolUniform "uUseTexture" = false ∧
        water.intUniform "uComputeMode" = 1) := by
  obtain ⟨sky, hsky, hskyP⟩ := drawRiversideScene.sky_draw cubeVAO s
  have hwater : ∃ d : DrawCall,
      (drawRiversideScene.water cubeVAO (drawRiversideScene.sky cubeVAO s)).drawCalls
        = (drawRiversideScene.sky cubeVAO s).drawCalls ++ [d] ∧
      d.primitive = .arrays cubeVAO 0 36 ∧ d.boolUniform "isWater" = true ∧
      d.boolUniform "isSky" = false ∧
      d.boolUniform "uUseTexture" = false ∧ d.intUniform "uComputeMode" = 1 := by
    have hs := drawRiversideScene.sky_isSky cubeVAO s
    refine ⟨_, rfl, rfl, ?_, ?_, ?_, ?_⟩ <;>
      simp [State.setBool, State.setInt, glBindVertexArray, hs]
  obtain ⟨water, hwater, hwaterP⟩ := hwater
  have hrest : (drawRiversideScene.water cubeVAO
      (drawRiversideScene.sky cubeVAO s)).drawsExtend
        (drawRiversideScene sphere cylinder cone cubeVAO s) := by
    unfold drawRiversideScene
    dsimp only
    exact drawRiversideScene.railings_after _
      (forLoop_after _ _ (fun p s => drawRiversideScene.glassWalls_after _ p
          (State.drawsExtend_refl s))
        (forLoop_after _ _ (fun p s => drawRiversideScene.canopyFrame_after _ _ _ _ p
            (State.drawsExtend_refl s))
          (drawRiversideScene.floor_after _ (State.drawsExtend_refl _))))
  obtain ⟨rest, hrest⟩ := hrest
  refine ⟨sky, water, rest, ?_, hskyP, hwaterP⟩
  rw [hrest, hwater, hsky]
  simp

/-! ## The zoom of the camera -/

theorem scroll_callback_clamps_aux {α : Type} [LinearOrderedField α] (xoffset yoffset : α)
    (camera : Camera α) :
    (1 ≤ camera.Zoom - yoffset → camera.Zoom - yoffset ≤ 45 →
      (scroll_callback xoffset yoffset camera).Zoom = camera.Zoom - yoffset) ∧
    (camera.Zoom - yoffset < 1 → (scroll_callback xoffset yoffset camera).Zoom = 1) ∧
    (45 < camera.Zoom - yoffset → (scroll_callback xoffset yoffset camera).Zoom = 45) := by
  have h45 : (1 : α) ≤ 45 := by norm_num
  unfold scroll_callback
  dsimp only
  refine ⟨?_, ?_, ?_⟩
  · intro hlo hhi
    rw [if_neg (not_lt.mpr hlo), if_neg (not_lt.mpr hhi)]
  · intro hlo
    rw [if_pos hlo]
    simp only [gt_iff_lt, if_neg (not_lt.mpr h45)]
  · intro hhi
    rw [if_neg (not_lt.mpr (le_of_lt (lt_of_le_of_lt h45 hhi))), if_pos hhi]

/-- C21: `scroll_callback` clamps the camera zoom.  For every previous zoom value and every
`yoffset`, after the call `1 <= camera.Zoom <= 45`; the new value is `old - yoffset` whenever
that difference already lies in `[1, 45]`, it is `1` when the difference is below 1 and `45`
when it is above 45 (over exact arithmetic in any ordered field, the reals among them). -/
theorem scroll_callback_clamps {α : Type} [LinearOrderedField α] (xoffset yoffset : α)
    (camera : Camera α) :
    (1 ≤ (scroll_callback xoffset yoffset camera).Zoom ∧
      (scroll_callback xoffset yoffset camera).Zoom ≤ 45) ∧
    (1 ≤ camera.Zoom - yoffset → camera.Zoom - yoffset ≤ 45 →
      (scroll_callback xoffset yoffset camera).Zoom = camera.Zoom - yoffset) ∧
    (camera.Zoom - yoffset < 1 → (scroll_callback xoffset yoffset camera).Zoom = 1) ∧
    (45 < camera.Zoom - yoffset → (scroll_callback xoffset yoffset camera).Zoom = 45) := by
  have h45 : (1 : α) ≤ 45 := by norm_num
  obtain ⟨hmid, hlow, hhigh⟩ := scroll_callback_clamps_aux xoffset yoffset camera
  refine ⟨?_, hmid, hlow, hhigh⟩
  rcases lt_or_le (camera.Zoom - yoffset) 1 with h | h
  · rw [hlow h]
    exact ⟨le_refl _, h45⟩
  · rcases lt_or_le 45 (camera.Zoom - yoffset) with h' | h'
    · rw [hhigh h']
      exact ⟨h45, le_refl _⟩
    · rw [hmid h h']
      exact ⟨h, h'⟩

/-- From the zoom 45 the camera starts with, over the reals: scrolling by 3 gives 42, scrolling
by -10 stays at 45, scrolling by 100 stops at 1. -/
theorem scroll_callback_clamps_examples :
    (scroll_callback (0 : ℝ) 3 { Zoom := 45 }).Zoom = 42 ∧
    (scroll_callback (0 : ℝ) (-10) { Zoom := 45 }).Zoom = 45 ∧
    (scroll_callback (0 : ℝ) 100 { Zoom := 45 }).Zoom = 1 := by
  refine ⟨?_, ?_, ?_⟩
  · rw [(scroll_callback_clamps_aux (0 : ℝ) 3 { Zoom := 45 }).1 (by norm_num) (by norm_num)]
    norm_num
  · exact (scroll_callback_clamps_aux (0 : ℝ) (-10) { Zoom := 45 }).2.2 (by norm_num)
  · exact (scroll_callback_clamps_aux (0 : ℝ) 100 { Zoom := 45 }).2.1 (by norm_num)
